import Mathlib

/-!
Verification of the cycling-trainer application core against its
natural-language specification.

The Lean definitions below are shallow embeddings of the Python sources:

* `src/ble_manager.py`   — wire-protocol decoders (`_handle_indoor_bike_data`,
  `_handle_cycling_power`, `_handle_hr_measurement`);
* `src/workout_manager.py` — `WorkoutConfig`, `get_hr_adjusted_power`, and the
  `WorkoutManager` state machine (`start` / `stop` / `update`);
* `src/zone_analyzer.py` — `ZoneAnalyzer.update`, `_check_hr_zone`,
  `_check_cardiac_drift`, `_check_decoupling`;
* `src/fit_exporter.py`  — FIT byte encoder (`export`, `_build_fit_file`,
  `_calculate_crc`, and the individual message builders).

Modelling conventions:

* Byte strings are `List ℕ` (each entry a byte value `< 256`).
* Python machine integers are `ℤ` / `ℕ`; Python floats are modelled as `ℚ`.
  Wherever a float operation in the source is exact for the values that can
  actually reach it (division by 100, wall-clock subtraction, `* 1000`), the
  rational model coincides with the float semantics; theorems only depend on
  comparisons that are far from any representation boundary.
* A Python function that can raise (`struct.error` / `IndexError` /
  `ValueError`) is modelled as `Option` / `Except`: `none` (resp. `.error`)
  means the call raises.
* Mutable attributes become explicit state records threaded through the
  functions; wall-clock `time.time()` becomes an explicit `now : ℚ` argument.
-/

/-! ## Wire codec (src/ble_manager.py) -/

/-- Little-endian unsigned 16-bit value of two bytes (`struct.unpack('<H', …)`). -/
def u16le (b0 b1 : ℕ) : ℕ := b0 + 256 * b1

/-- Little-endian signed 16-bit value of two bytes (`struct.unpack('<h', …)`). -/
def s16le (b0 b1 : ℕ) : ℤ :=
  let v : ℤ := (u16le b0 b1 : ℤ)
  if v < 32768 then v else v - 65536

/-- `BikeData` (src/ble_manager.py:38-44).  `speed` is `speed_raw / 100.0`
modelled in `ℚ`; the `timestamp` attribute (wall clock at decode time) is not
part of the decoded payload and is omitted. -/
structure BikeData where
  power : ℤ
  cadence : ℕ
  speed : ℚ
deriving DecidableEq, Repr

/-- `BLEManager._handle_indoor_bike_data` (src/ble_manager.py:279-346), the
FTMS Indoor Bike Data decode.  `none` models the `struct.error` raised by
`struct.unpack('<H', data[0:2])` when fewer than 2 bytes are available.  The
sequential `offset` mutations of the Python code become the chained
`off1 … off6` bindings; each `offset + 1 < data.length` test is the source's
`len(data) > offset + 1` guard. -/
def decodeIndoorBikeData (data : List ℕ) : Option BikeData :=
  if data.length < 2 then none else
  let flags := u16le (data.getD 0 0) (data.getD 1 0)
  -- Instantaneous speed: read whenever 2 bytes remain (the "more data" flag
  -- bit 0 is *not* consulted by the source).
  let speedRaw := if 2 + 1 < data.length then u16le (data.getD 2 0) (data.getD 3 0) else 0
  let off1 := if 2 + 1 < data.length then 4 else 2
  -- Skip average speed (bit 1)
  let off2 := if flags &&& 2 ≠ 0 then off1 + 2 else off1
  -- Instantaneous cadence (bit 2), 0.5 rpm resolution
  let cadence := if flags &&& 4 ≠ 0 ∧ off2 + 1 < data.length then
      u16le (data.getD off2 0) (data.getD (off2 + 1) 0) / 2 else 0
  let off3 := if flags &&& 4 ≠ 0 ∧ off2 + 1 < data.length then off2 + 2 else off2
  -- Skip average cadence (bit 3), total distance (bit 4), resistance (bit 5)
  let off4 := if flags &&& 8 ≠ 0 then off3 + 2 else off3
  let off5 := if flags &&& 16 ≠ 0 then off4 + 3 else off4
  let off6 := if flags &&& 32 ≠ 0 then off5 + 2 else off5
  -- Instantaneous power (bit 6), signed 16-bit
  let power := if flags &&& 64 ≠ 0 ∧ off6 + 1 < data.length then
      s16le (data.getD off6 0) (data.getD (off6 + 1) 0) else 0
  some { power := max 0 power, cadence := cadence, speed := (speedRaw : ℚ) / 100 }

/-- `BLEManager._handle_cycling_power` (src/ble_manager.py:348-363).  Returns
the power written into the cached bike sample (`max(0, power)`); `none` models
the `struct.error` on frames shorter than the fixed 4-byte prefix
(2 flag bytes read first, then 2 power bytes). -/
def decodeCyclingPower (data : List ℕ) : Option ℤ :=
  if data.length < 2 then none else   -- struct.unpack('<H', data[0:2])
  if data.length < 4 then none else   -- struct.unpack('<h', data[2:4])
  some (max 0 (s16le (data.getD 2 0) (data.getD 3 0)))

/-- `BLEManager._handle_hr_measurement` (src/ble_manager.py:365-387).  `none`
models the `IndexError` on an empty frame (`data[0]` / `data[1]`) and the
`struct.error` when flag bit 0 requests a 16-bit value but fewer than 2 bytes
follow the flags byte. -/
def decodeHeartRate (data : List ℕ) : Option ℕ :=
  match data with
  | [] => none
  | flags :: rest =>
    if flags &&& 1 ≠ 0 then
      if 2 ≤ rest.length then some (u16le (rest.getD 0 0) (rest.getD 1 0)) else none
    else
      match rest with
      | [] => none
      | b :: _ => some b

/-- C1, counterexample.  The claim predicts that the 4-byte frame
`[0x40, 0x00, 0x2C, 0x01]` (flags = power-present bit only, raw signed power
300) decodes to power 300, speed 0.  The code instead consumes bytes 2–3 as
the unconditional instantaneous-speed field (speed 3.00 km/h), and the power
field's length guard then fails, leaving power 0. -/
theorem c1_counterexample :
    decodeIndoorBikeData [0x40, 0x00, 0x2C, 0x01] =
      some { power := 0, cadence := 0, speed := 3 } ∧
    decodeIndoorBikeData [0x40, 0x00, 0x2C, 0x01] ≠
      some { power := 300, cadence := 0, speed := 0 } := by
  constructor <;>
    norm_num [decodeIndoorBikeData, u16le, s16le, List.getD,
      show (64:ℕ) &&& 2 = 0 by decide, show (64:ℕ) &&& 4 = 0 by decide,
      show (64:ℕ) &&& 8 = 0 by decide, show (64:ℕ) &&& 16 = 0 by decide,
      show (64:ℕ) &&& 32 = 0 by decide, show (64:ℕ) &&& 64 = 64 by decide]

/-- C1, amended.  Decoding a 4-byte indoor-bike frame whose 16-bit LE flags
field has only the instantaneous-power bit (bit 6) set yields a BikeData
sample with cadence 0, power 0, and speed equal to the 16-bit LE value of
bytes 2–3 divided by 100 (km/h): the decoder reads the instantaneous-speed
field unconditionally whenever two bytes follow the flags, so the two bytes
the claim calls "power" are consumed as speed and the power read is skipped
by its length guard. -/
theorem c1_power_only_frame_decoded_as_speed (b0 b1 : ℕ) (h0 : b0 < 256) (h1 : b1 < 256) :
    decodeIndoorBikeData [0x40, 0x00, b0, b1] =
      some { power := 0, cadence := 0, speed := (u16le b0 b1 : ℚ) / 100 } := by
  norm_num [decodeIndoorBikeData, u16le, s16le, List.getD,
    show (64:ℕ) &&& 2 = 0 by decide, show (64:ℕ) &&& 4 = 0 by decide,
    show (64:ℕ) &&& 8 = 0 by decide, show (64:ℕ) &&& 16 = 0 by decide,
    show (64:ℕ) &&& 32 = 0 by decide, show (64:ℕ) &&& 64 = 64 by decide]

/-- C1, witness for the amended theorem at the concrete frame
`[0x40, 0x00, 0x2C, 0x01]` (raw 300 → 3.00 km/h). -/
theorem c1_power_only_frame_decoded_as_speed_witness :
    decodeIndoorBikeData [0x40, 0x00, 0x2C, 0x01] =
      some { power := 0, cadence := 0, speed := 3 } := by
  rw [c1_power_only_frame_decoded_as_speed 0x2C 0x01 (by norm_num) (by norm_num)]
  norm_num [u16le]

/-- C2, counterexample.  Each decode handler raises on a frame of byte
length ≥ 1 that is shorter than its mandatory prefix, contradicting the
claim that decoding is total for every frame of length ≥ 1:
`struct.unpack('<H', data[0:2])` raises `struct.error` on the 1-byte indoor
bike frame, `struct.unpack('<H', data[1:3])` raises on a 2-byte heart-rate
frame whose flag bit 0 requests a 16-bit value, and
`struct.unpack('<h', data[2:4])` raises on a 3-byte cycling-power frame. -/
theorem c2_counterexample :
    decodeIndoorBikeData [0x40] = none ∧
    decodeHeartRate [0x01, 150] = none ∧
    decodeCyclingPower [0x00, 0x00, 0x2C] = none := by
  refine ⟨by decide, by decide, by decide⟩

set_option maxHeartbeats 1000000 in
/-- C2, amended.  Every decode handler is total for frames at least as long
as its mandatory fixed prefix — 2 bytes (the flags field) for indoor bike
data, 4 bytes (flags + power) for cycling power, 2 bytes for a heart-rate
frame in 8-bit format and 3 bytes in 16-bit format — and optional fields
whose bytes are unavailable keep their zero defaults (in particular a 2- or
3-byte indoor-bike frame decodes to the all-default sample).  Shorter
frames raise `struct.error`/`IndexError` inside the handler. -/
theorem c2_decoders_total_above_mandatory_bytes :
    (∀ data : List ℕ, 2 ≤ data.length → (decodeIndoorBikeData data).isSome) ∧
    (∀ b0 b1 b2 : ℕ,
      decodeIndoorBikeData [b0, b1] = some { power := 0, cadence := 0, speed := 0 } ∧
      decodeIndoorBikeData [b0, b1, b2] = some { power := 0, cadence := 0, speed := 0 }) ∧
    (∀ data : List ℕ, 4 ≤ data.length → (decodeCyclingPower data).isSome) ∧
    (∀ data : List ℕ, 3 ≤ data.length → (decodeHeartRate data).isSome) ∧
    (∀ b rest, b &&& 1 = 0 → rest ≠ [] → (decodeHeartRate (b :: rest)).isSome) := by
  refine ⟨?_, ?_, ?_, ?_, ?_⟩
  · intro data h
    simp only [decodeIndoorBikeData]
    rw [if_neg (by omega)]
    rfl
  · intro b0 b1 b2
    constructor <;>
      (simp only [decodeIndoorBikeData, List.length_cons, List.length_nil, List.getD]
       norm_num
       split_ifs <;> omega)
  · intro data h
    simp only [decodeCyclingPower]
    rw [if_neg (by omega), if_neg (by omega)]
    rfl
  · intro data h
    match data, h with
    | b :: rest, h =>
      have hr : 2 ≤ rest.length := by simpa using h
      simp only [decodeHeartRate, if_pos hr]
      split_ifs with hb
      · rfl
      · match rest, hr with
        | r :: rs, _ => rfl
  · intro b rest hb hne
    simp only [decodeHeartRate, hb]
    match rest, hne with
    | r :: rs, _ => rfl

/-- C2, witness for the amended totality theorem at concrete minimal
frames. -/
theorem c2_decoders_total_above_mandatory_bytes_witness :
    (decodeIndoorBikeData [0x40, 0x00]).isSome ∧
    decodeIndoorBikeData [0x40, 0x00] = some { power := 0, cadence := 0, speed := 0 } ∧
    (decodeCyclingPower [0x00, 0x00, 0x2C, 0x01]).isSome ∧
    (decodeHeartRate [0x01, 150, 0]).isSome ∧
    (decodeHeartRate [0x00, 150]).isSome := by
  refine ⟨?_, ?_, ?_, ?_, ?_⟩
  · exact c2_decoders_total_above_mandatory_bytes.1 [0x40, 0x00] (by norm_num)
  · exact (c2_decoders_total_above_mandatory_bytes.2.1 0x40 0x00 0x00).1
  · exact c2_decoders_total_above_mandatory_bytes.2.2.1 [0x00, 0x00, 0x2C, 0x01] (by norm_num)
  · exact c2_decoders_total_above_mandatory_bytes.2.2.2.1 [0x01, 150, 0] (by norm_num)
  · exact c2_decoders_total_above_mandatory_bytes.2.2.2.2 0x00 [150] (by decide) (by simp)

/-! ## Workout manager (src/workout_manager.py) -/

/-- Python `int(q)` for a float value: truncation toward zero. -/
def pyTrunc (q : ℚ) : ℤ := if 0 ≤ q then ⌊q⌋ else ⌈q⌉

/-- `WorkoutConfig` (src/workout_manager.py:82-115). -/
structure WorkoutConfig where
  ftp : ℕ
  hr_zone2_low : ℤ
  hr_zone2_high : ℤ
deriving DecidableEq, Repr

/-- `WorkoutConfig.zone2_power = int(ftp * 0.65)`.  For natural `ftp` the
float product `ftp * 0.65` truncates to `⌊ftp·65/100⌋` (the product of an
integer with the double nearest 0.65 never crosses an integer boundary
downward), so the model uses exact rational arithmetic. -/
def WorkoutConfig.zone2_power (c : WorkoutConfig) : ℤ := (c.ftp * 65 / 100 : ℕ)

/-- `WorkoutConfig.zone2_low = int(ftp * 0.50)` (min power bound). -/
def WorkoutConfig.zone2_low (c : WorkoutConfig) : ℤ := (c.ftp * 50 / 100 : ℕ)

/-- `WorkoutConfig.zone2_high = int(ftp * 0.80)` (max power bound). -/
def WorkoutConfig.zone2_high (c : WorkoutConfig) : ℤ := (c.ftp * 80 / 100 : ℕ)

/-- `WorkoutConfig.warmup_start_power = int(ftp * 0.40)`. -/
def WorkoutConfig.warmup_start_power (c : WorkoutConfig) : ℤ := (c.ftp * 40 / 100 : ℕ)

/-- `WorkoutConfig.cooldown_end_power = int(ftp * 0.40)`. -/
def WorkoutConfig.cooldown_end_power (c : WorkoutConfig) : ℤ := (c.ftp * 40 / 100 : ℕ)

/-- `WorkoutConfig.hr_target = (hr_zone2_low + hr_zone2_high) // 2`
(Python floor division). -/
def WorkoutConfig.hrTarget (c : WorkoutConfig) : ℤ :=
  Int.fdiv (c.hr_zone2_low + c.hr_zone2_high) 2

/-- `WorkoutManager._power_step` (src/workout_manager.py:141). -/
def powerStep : ℤ := 5

/-- `WorkoutManager._hr_adjustment_interval` (src/workout_manager.py:140). -/
def hrAdjustmentInterval : ℚ := 30

/-- The HR-adaptive control attributes of `WorkoutManager`
(src/workout_manager.py:136-142). -/
structure AdaptiveState where
  hrTargetMode : Bool
  hrSamples : List ℤ
  lastAdjustmentTime : ℚ
  currentAdaptivePower : ℤ
deriving DecidableEq, Repr

/-- Mean of the HR sample window (`sum(samples) / len(samples)`), exact in ℚ. -/
def hrMean (samples : List ℤ) : ℚ := (samples.sum : ℚ) / samples.length

/-- `WorkoutManager.get_hr_adjusted_power` (src/workout_manager.py:375-427)
as a pure function of the configuration, the adaptive-control state and the
wall clock.  The returned pair is (Python return value, updated state);
`none` models `return None`. -/
def getHrAdjustedPower (c : WorkoutConfig) (s : AdaptiveState) (now : ℚ) :
    Option ℤ × AdaptiveState :=
  if ¬ s.hrTargetMode ∨ s.hrSamples.length < 10 then (none, s) else
  if now - s.lastAdjustmentTime < hrAdjustmentInterval then (none, s) else
  let s1 := { s with lastAdjustmentTime := now }
  let avgHr := hrMean s1.hrSamples
  let targetHr := c.hrTarget
  let hrLow := c.hr_zone2_low
  let hrHigh := c.hr_zone2_high
  let oldPower := s1.currentAdaptivePower
  let newPower :=
    if avgHr > (hrHigh : ℚ) + 5 then oldPower - powerStep * 2
    else if avgHr > (hrHigh : ℚ) then oldPower - powerStep
    else if avgHr < (hrLow : ℚ) - 5 then oldPower + powerStep * 2
    else if avgHr < (hrLow : ℚ) then oldPower + powerStep
    else if avgHr > (targetHr : ℚ) + 3 then oldPower - powerStep
    else if avgHr < (targetHr : ℚ) - 3 then oldPower + powerStep
    else oldPower
  let newPower2 := max c.zone2_low (min c.zone2_high newPower)
  if newPower2 ≠ oldPower then
    (some newPower2, { s1 with currentAdaptivePower := newPower2 })
  else (none, s1)

/-- `WorkoutPhase` (src/workout_manager.py:12-19). -/
inductive WorkoutPhase where
  | notStarted
  | warmup
  | main
  | interval
  | recovery
  | cooldown
  | completed
deriving DecidableEq, Repr

/-- `WorkoutSegment` (src/workout_manager.py:62-79). -/
structure WorkoutSegment where
  name : String
  duration_seconds : ℕ
  target_power_start : ℤ
  target_power_end : ℤ
  phase : WorkoutPhase
deriving DecidableEq, Repr

instance : Inhabited WorkoutSegment :=
  ⟨⟨"", 0, 0, 0, WorkoutPhase.main⟩⟩

/-- `WorkoutSegment.get_power_at_time` (src/workout_manager.py:71-79):
steady segments return the start power; ramps linearly interpolate with
progress clamped to 1 and the float result truncated by `int(...)`. -/
def WorkoutSegment.getPowerAtTime (seg : WorkoutSegment) (elapsed : ℤ) : ℤ :=
  if seg.target_power_start = seg.target_power_end then seg.target_power_start
  else
    let progress : ℚ := min 1 ((elapsed : ℚ) / (seg.duration_seconds : ℚ))
    pyTrunc ((seg.target_power_start : ℚ) +
      ((seg.target_power_end - seg.target_power_start : ℤ) : ℚ) * progress)

/-- Zone-2 template of `WorkoutManager._build_workout` for
`workout_type == "zone2"` (src/workout_manager.py:152-176). -/
def zone2Segments (c : WorkoutConfig) : List WorkoutSegment :=
  [ ⟨"Warmup", 5 * 60, c.warmup_start_power, c.zone2_power, WorkoutPhase.warmup⟩,
    ⟨"Zone 2", 50 * 60, c.zone2_power, c.zone2_power, WorkoutPhase.main⟩,
    ⟨"Cooldown", 5 * 60, c.zone2_power, c.cooldown_end_power, WorkoutPhase.cooldown⟩ ]

/-- `WorkoutManager` run-state attributes used by `start`/`stop`/`update`
(src/workout_manager.py:121-145).  `workout_start_time` only feeds the
elapsed/remaining convenience properties and is omitted;
`segment_start_time` is initialised by `start()` before any running
`update()` can read it, so it is modelled as a plain rational. -/
structure WMState where
  config : WorkoutConfig
  segments : List WorkoutSegment
  currentSegmentIndex : ℤ
  segmentStartTime : ℚ
  isRunning : Bool
  currentWorkoutType : String
  adaptive : AdaptiveState
  lastTargetPower : ℤ
deriving DecidableEq, Repr

/-- A fresh `WorkoutManager(ftp, hr_low, hr_high)` (src/workout_manager.py:
121-145): not running, `current_segment_index = -1`, zone2 template built. -/
def WMState.init (ftp : ℕ) (hrLow hrHigh : ℤ) : WMState :=
  let c : WorkoutConfig := ⟨ftp, hrLow, hrHigh⟩
  { config := c
    segments := zone2Segments c
    currentSegmentIndex := -1
    segmentStartTime := 0
    isRunning := false
    currentWorkoutType := "zone2"
    adaptive := ⟨false, [], 0, 0⟩
    lastTargetPower := 0 }

/-- `WorkoutManager.start` (src/workout_manager.py:337-358).  `none` models
the `IndexError` of `self.segments[0]` on an empty template (never the case
for the built-in templates). -/
def WMState.start (s : WMState) (now : ℚ) : Option WMState :=
  match s.segments with
  | [] => none
  | seg0 :: _ =>
    some { s with
      currentSegmentIndex := 0
      segmentStartTime := now
      isRunning := true
      adaptive := { hrTargetMode := false, hrSamples := [],
                    lastAdjustmentTime := now,
                    currentAdaptivePower := s.config.zone2_power }
      lastTargetPower := seg0.getPowerAtTime 0 }

/-- `WorkoutManager.stop` (src/workout_manager.py:360-365). -/
def WMState.stop (s : WMState) : WMState :=
  { s with
    isRunning := false
    currentSegmentIndex := -1
    adaptive := { s.adaptive with hrTargetMode := false, hrSamples := [] } }

/-- Change-only power emission at the tail of `update`
(src/workout_manager.py:498-505). -/
def emitPowerChange (s : WMState) (target : ℤ) : WMState × Option ℤ :=
  if target ≠ s.lastTargetPower then
    ({ s with lastTargetPower := target }, some target)
  else (s, none)

/-- `WorkoutManager.update` (src/workout_manager.py:439-505), returning the
updated state and the Python return value (`some p` = power change `p`). -/
def WMState.update (s : WMState) (now : ℚ) : WMState × Option ℤ :=
  if ¬ s.isRunning ∨ s.currentSegmentIndex < 0 then (s, none)
  else if (s.segments.length : ℤ) ≤ s.currentSegmentIndex then
    ({ s with isRunning := false }, none)
  else
    let seg := s.segments.getD s.currentSegmentIndex.toNat default
    let segmentElapsed := now - s.segmentStartTime
    if (seg.duration_seconds : ℚ) ≤ segmentElapsed then
      let idx := s.currentSegmentIndex + 1
      let s1 := { s with currentSegmentIndex := idx, segmentStartTime := now }
      if (s1.segments.length : ℤ) ≤ idx then
        ({ s1 with isRunning := false,
                   adaptive := { s1.adaptive with hrTargetMode := false } }, none)
      else
        let seg2 := s1.segments.getD idx.toNat default
        let s2 :=
          if s1.currentWorkoutType = "zone2" ∧ seg2.phase = WorkoutPhase.main then
            { s1 with adaptive := { hrTargetMode := true, hrSamples := [],
                                    lastAdjustmentTime := now,
                                    currentAdaptivePower := s1.config.zone2_power } }
          else
            { s1 with adaptive := { s1.adaptive with hrTargetMode := false } }
        let target := if s2.adaptive.hrTargetMode then s2.adaptive.currentAdaptivePower
                      else seg2.getPowerAtTime 0
        emitPowerChange s2 target
    else
      let target := if s.adaptive.hrTargetMode then s.adaptive.currentAdaptivePower
                    else seg.getPowerAtTime (pyTrunc segmentElapsed)
      emitPowerChange s target

/-- HR target lies inside the zone when the zone is nonempty. -/
theorem hrTarget_mem_zone (c : WorkoutConfig) (h : c.hr_zone2_low ≤ c.hr_zone2_high) :
    c.hr_zone2_low ≤ c.hrTarget ∧ c.hrTarget ≤ c.hr_zone2_high := by
  unfold WorkoutConfig.hrTarget
  rw [Int.fdiv_eq_ediv _ (by norm_num)]
  omega

/-- The configured power band is always well ordered. -/
theorem zone2_low_le_zone2_high (c : WorkoutConfig) : c.zone2_low ≤ c.zone2_high := by
  unfold WorkoutConfig.zone2_low WorkoutConfig.zone2_high
  omega

/-- C3 reference definition, written from the amended spec wording: five
tiers against the zone bounds and the midpoint target — mean above high+5
gives −2×step, above high gives −step, below low−5 gives +2×step, below low
gives +step; otherwise a mean **more than 3 away** from the midpoint gives a
one-step nudge toward the midpoint, and a mean within ±3 of the midpoint
leaves power unchanged; the result is clamped to the
`[zone2_low, zone2_high]` band and emitted only when it differs from the
current adaptive power. -/
def adjustPowerPerSpec (c : WorkoutConfig) (m : ℚ) (old : ℤ) : Option ℤ :=
  let raw :=
    if m > (c.hr_zone2_high : ℚ) + 5 then old - powerStep * 2
    else if m > (c.hr_zone2_high : ℚ) then old - powerStep
    else if m < (c.hr_zone2_low : ℚ) - 5 then old + powerStep * 2
    else if m < (c.hr_zone2_low : ℚ) then old + powerStep
    else if m > (c.hrTarget : ℚ) + 3 then old - powerStep
    else if m < (c.hrTarget : ℚ) - 3 then old + powerStep
    else old
  let clamped := max c.zone2_low (min c.zone2_high raw)
  if clamped ≠ old then some clamped else none

/-- C3, counterexample.  Config FTP 215, zone 124–143 (midpoint target 133),
adaptive power 139, ten HR samples, 30 s since the last adjustment (armed and
eligible).  With mean HR 134 — within ±3 of the midpoint — the claim predicts
a one-step nudge toward the midpoint, but the code returns `None` (power
unchanged); with mean HR 140 — in zone but **not** within ±3 of the
midpoint — the claim predicts no change, but the code returns a −5 W
adjustment (134 W).  The claim's midpoint tier is inverted. -/
theorem c3_counterexample :
    (getHrAdjustedPower ⟨215, 124, 143⟩
      ⟨true, [134, 134, 134, 134, 134, 134, 134, 134, 134, 134], 0, 139⟩ 30).1 = none ∧
    (getHrAdjustedPower ⟨215, 124, 143⟩
      ⟨true, [140, 140, 140, 140, 140, 140, 140, 140, 140, 140], 0, 139⟩ 30).1 = some 134 := by
  constructor <;>
    norm_num [getHrAdjustedPower, hrMean, WorkoutConfig.hrTarget,
      WorkoutConfig.zone2_low, WorkoutConfig.zone2_high, powerStep,
      hrAdjustmentInterval, show Int.fdiv (124 + 143) 2 = 133 by decide,
      show Int.fdiv 267 2 = 133 by decide]

/-- Eligible calls to `get_hr_adjusted_power` follow the five-tier table at
the mean of the HR window (shared helper for the claims below). -/
theorem getHrAdjustedPower_eq_tiers (c : WorkoutConfig) (s : AdaptiveState) (now : ℚ)
    (hMode : s.hrTargetMode = true)
    (hLen : 10 ≤ s.hrSamples.length)
    (hInt : hrAdjustmentInterval ≤ now - s.lastAdjustmentTime) :
    (getHrAdjustedPower c s now).1 =
      adjustPowerPerSpec c (hrMean s.hrSamples) s.currentAdaptivePower := by
  have h1 : (¬ s.hrTargetMode ∨ s.hrSamples.length < 10) = False := by
    simp only [eq_iff_iff, iff_false]
    push_neg
    exact ⟨by simp [hMode], by omega⟩
  have h2 : (now - s.lastAdjustmentTime < hrAdjustmentInterval) = False :=
    eq_false (not_lt.mpr hInt)
  simp only [getHrAdjustedPower, adjustPowerPerSpec, h1, h2, if_false]
  split_ifs <;> rfl

/-- Ineligible calls (disarmed, fewer than 10 samples, or within the
adjustment interval) return `None`. -/
theorem getHrAdjustedPower_ineligible (c : WorkoutConfig) (s : AdaptiveState) (now : ℚ)
    (h : (¬ s.hrTargetMode ∨ s.hrSamples.length < 10) ∨
         now - s.lastAdjustmentTime < hrAdjustmentInterval) :
    (getHrAdjustedPower c s now).1 = none := by
  rcases h with h | h
  · simp only [getHrAdjustedPower, if_pos h]
  · by_cases h0 : (¬ s.hrTargetMode ∨ s.hrSamples.length < 10)
    · simp only [getHrAdjustedPower, if_pos h0]
    · simp only [getHrAdjustedPower, if_neg h0, if_pos h]

/-- C3, amended.  For a controller in armed HR-target mode with at least 10
HR samples and at least 30 seconds since the last adjustment,
`get_hr_adjusted_power` computes the mean of the HR window and applies five
tiers against the zone bounds and midpoint target: mean > high+5 gives
−2×step; mean > high gives −step; mean < low−5 gives +2×step; mean < low
gives +step; otherwise a mean **more than 3 away** from the midpoint
triggers a one-step nudge toward the midpoint while a mean within ±3 of the
midpoint leaves power unchanged; the result is clamped to the
`[zone2_low, zone2_high]` power band and returned only if it differs from
the current adaptive power. -/
theorem c3_five_tier_adjustment (c : WorkoutConfig) (s : AdaptiveState) (now : ℚ)
    (hMode : s.hrTargetMode = true)
    (hLen : 10 ≤ s.hrSamples.length)
    (hInt : hrAdjustmentInterval ≤ now - s.lastAdjustmentTime) :
    (getHrAdjustedPower c s now).1 =
      adjustPowerPerSpec c (hrMean s.hrSamples) s.currentAdaptivePower :=
  getHrAdjustedPower_eq_tiers c s now hMode hLen hInt

/-- C3, witness for the amended theorem at the counterexample's second
configuration (mean 140 → −5 W, clamped inside [107, 172]). -/
theorem c3_five_tier_adjustment_witness :
    (getHrAdjustedPower ⟨215, 124, 143⟩
      ⟨true, [140, 140, 140, 140, 140, 140, 140, 140, 140, 140], 0, 139⟩ 30).1 =
    adjustPowerPerSpec ⟨215, 124, 143⟩
      (hrMean [140, 140, 140, 140, 140, 140, 140, 140, 140, 140]) 139 := by
  exact c3_five_tier_adjustment ⟨215, 124, 143⟩
    ⟨true, [140, 140, 140, 140, 140, 140, 140, 140, 140, 140], 0, 139⟩ 30
    rfl (by norm_num) (by norm_num [hrAdjustmentInterval])

/-- C4.  Fixed point and band invariance of the adaptive adjustment: for a
reachable adaptive power (inside the configured band, as established by
`start`/`update`/the clamp itself) and a nonempty HR zone, (i) whenever the
mean of the HR window equals the configured HR target — the zone midpoint —
the call returns `None` (power unchanged), eligible or not; (ii) whenever
the call does return a new power, that power lies within
`[zone2_low, zone2_high] = [int(0.50·FTP), int(0.80·FTP)]`. -/
theorem c4_fixed_point_and_band (c : WorkoutConfig) (s : AdaptiveState) (now : ℚ)
    (hzone : c.hr_zone2_low ≤ c.hr_zone2_high)
    (hlo : c.zone2_low ≤ s.currentAdaptivePower)
    (hhi : s.currentAdaptivePower ≤ c.zone2_high) :
    (hrMean s.hrSamples = (c.hrTarget : ℚ) →
      (getHrAdjustedPower c s now).1 = none) ∧
    (∀ p : ℤ, (getHrAdjustedPower c s now).1 = some p →
      c.zone2_low ≤ p ∧ p ≤ c.zone2_high) := by
  obtain ⟨htlo, hthi⟩ := hrTarget_mem_zone c hzone
  have htloQ : ((c.hr_zone2_low : ℤ) : ℚ) ≤ ((c.hrTarget : ℤ) : ℚ) := by exact_mod_cast htlo
  have hthiQ : ((c.hrTarget : ℤ) : ℚ) ≤ ((c.hr_zone2_high : ℤ) : ℚ) := by exact_mod_cast hthi
  have hlh := zone2_low_le_zone2_high c
  by_cases helig : (¬ s.hrTargetMode ∨ s.hrSamples.length < 10) ∨
      now - s.lastAdjustmentTime < hrAdjustmentInterval
  · have hnone := getHrAdjustedPower_ineligible c s now helig
    refine ⟨fun _ => hnone, fun p hp => ?_⟩
    rw [hnone] at hp
    exact absurd hp (by simp)
  · push_neg at helig
    obtain ⟨helig1, helig2⟩ := helig
    have heq := getHrAdjustedPower_eq_tiers c s now helig1.1
      (by omega) helig2
    rw [heq]
    have hA : ¬ ((c.hrTarget : ℚ) > (c.hr_zone2_high : ℚ) + 5) := by push_neg; linarith
    have hB : ¬ ((c.hrTarget : ℚ) > (c.hr_zone2_high : ℚ)) := by push_neg; linarith
    have hC : ¬ ((c.hrTarget : ℚ) < (c.hr_zone2_low : ℚ) - 5) := by push_neg; linarith
    have hD : ¬ ((c.hrTarget : ℚ) < (c.hr_zone2_low : ℚ)) := by push_neg; linarith
    have hE : ¬ ((c.hrTarget : ℚ) > (c.hrTarget : ℚ) + 3) := by push_neg; linarith
    have hF : ¬ ((c.hrTarget : ℚ) < (c.hrTarget : ℚ) - 3) := by push_neg; linarith
    have hclamp : max c.zone2_low (min c.zone2_high s.currentAdaptivePower) =
        s.currentAdaptivePower := by
      rw [min_eq_right hhi, max_eq_right hlo]
    constructor
    · intro hMean
      unfold adjustPowerPerSpec
      rw [hMean, if_neg hA, if_neg hB, if_neg hC, if_neg hD, if_neg hE, if_neg hF,
        if_neg (by rw [hclamp]; simp)]
    · intro p hp
      simp only [adjustPowerPerSpec] at hp
      split_ifs at hp <;> try split_ifs at hp
      all_goals
        first
          | exact Option.noConfusion hp
          | (simp only [Option.some.injEq] at hp
             subst hp
             exact ⟨le_max_left _ _, max_le hlh (min_le_left _ _)⟩)

/-- C4, witness: FTP 215, zone 124–143 (band [107, 172], target 133),
adaptive power 139, ten samples at 133, eligible call at `now = 100`. -/
theorem c4_fixed_point_and_band_witness :
    (hrMean (List.replicate 10 (133:ℤ)) =
        ((WorkoutConfig.hrTarget ⟨215, 124, 143⟩ : ℤ) : ℚ) →
      (getHrAdjustedPower ⟨215, 124, 143⟩
        ⟨true, List.replicate 10 (133:ℤ), 0, 139⟩ 100).1 = none) ∧
    (∀ p : ℤ, (getHrAdjustedPower ⟨215, 124, 143⟩
        ⟨true, List.replicate 10 (133:ℤ), 0, 139⟩ 100).1 = some p →
      WorkoutConfig.zone2_low ⟨215, 124, 143⟩ ≤ p ∧
      p ≤ WorkoutConfig.zone2_high ⟨215, 124, 143⟩) :=
  c4_fixed_point_and_band ⟨215, 124, 143⟩ ⟨true, List.replicate 10 (133:ℤ), 0, 139⟩ 100
    (by norm_num)
    (by norm_num [WorkoutConfig.zone2_low])
    (by norm_num [WorkoutConfig.zone2_high])

/-- The zone-2 run of C9's counterexample: start at `t = 0`, then `update`
at `t = 301` (ends the 300 s warmup), `t = 3302` (ends the 3000 s main
block) and `t = 3603` (ends the 300 s cooldown, completing the workout). -/
def c9Run : Option WMState :=
  (WMState.init 215 124 143).start 0 |>.map fun s =>
    (((s.update 301).1.update 3302).1.update 3603).1

/-- C9, counterexample.  After the workout completes through `update` (no
explicit `stop`), `_is_running` is `False` but `current_segment_index` is
`3 = len(segments)` — one past the last segment — not `-1` as the claim
requires for every not-running state. -/
theorem c9_counterexample :
    (c9Run.map fun s => (s.isRunning, s.currentSegmentIndex)) = some (false, 3) ∧
    (WMState.init 215 124 143).segments.length = 3 ∧ (3:ℤ) ≠ -1 := by
  refine ⟨?_, by norm_num [WMState.init, zone2Segments], by norm_num⟩
  have h0 : (WMState.init 215 124 143).start 0 = some
      { config := ⟨215, 124, 143⟩
        segments := zone2Segments ⟨215, 124, 143⟩
        currentSegmentIndex := 0
        segmentStartTime := 0
        isRunning := true
        currentWorkoutType := "zone2"
        adaptive := ⟨false, [], 0, 139⟩
        lastTargetPower := 86 } := by
    norm_num [WMState.init, WMState.start, zone2Segments,
      WorkoutConfig.zone2_power, WorkoutConfig.warmup_start_power,
      WorkoutConfig.cooldown_end_power, WorkoutSegment.getPowerAtTime, pyTrunc]
  rw [c9Run, h0, Option.map_some']
  norm_num [WMState.update, emitPowerChange, zone2Segments,
    WorkoutConfig.zone2_power, WorkoutConfig.warmup_start_power,
    WorkoutConfig.cooldown_end_power, WorkoutSegment.getPowerAtTime, pyTrunc,
    List.getD, Int.toNat_ofNat, show ((0:ℤ).toNat) = 0 from rfl,
    show ((1:ℤ).toNat) = 1 from rfl, show ((2:ℤ).toNat) = 2 from rfl,
    show ((0:ℤ) + 1) = 1 from by norm_num, show ((1:ℤ) + 1) = 2 from by norm_num,
    show ((2:ℤ) + 1) = 3 from by norm_num,
    show ¬ (WorkoutPhase.cooldown = WorkoutPhase.main) from by decide,
    show ¬ (WorkoutPhase.warmup = WorkoutPhase.main) from by decide]

/-- C9, amended.  `current_segment_index` never decreases across `update()`
calls; it is `-1` on a fresh manager and after `stop()`; but when a running
workout completes through `update()` (without an explicit `stop()`), the
index is left at `len(segments)` — one past the last segment — rather than
`-1`. -/
theorem c9_segment_index_behavior :
    (∀ (ftp : ℕ) (hrLow hrHigh : ℤ),
      (WMState.init ftp hrLow hrHigh).currentSegmentIndex = -1) ∧
    (∀ s : WMState, s.stop.currentSegmentIndex = -1) ∧
    (∀ (s : WMState) (now : ℚ),
      s.currentSegmentIndex ≤ ((s.update now).1).currentSegmentIndex) ∧
    (∀ (s : WMState) (now : ℚ), s.isRunning = true → 0 ≤ s.currentSegmentIndex →
      s.currentSegmentIndex < (s.segments.length : ℤ) →
      ((s.update now).1).isRunning = false →
      ((s.update now).1).currentSegmentIndex = (s.segments.length : ℤ)) := by
  refine ⟨fun _ _ _ => rfl, fun _ => rfl, ?_, ?_⟩
  · intro s now
    simp only [WMState.update, emitPowerChange]
    split_ifs <;> simp <;> omega
  · intro s now h1 h2 h3 h4
    revert h4
    simp only [WMState.update, emitPowerChange]
    split_ifs <;> simp_all <;> omega

/-- A minimal running single-segment state used to witness the completion
behaviour of `update`. -/
def c9WitnessState : WMState :=
  { config := ⟨215, 124, 143⟩
    segments := [⟨"Main", 300, 139, 139, WorkoutPhase.main⟩]
    currentSegmentIndex := 0
    segmentStartTime := 0
    isRunning := true
    currentWorkoutType := "zone2"
    adaptive := ⟨false, [], 0, 139⟩
    lastTargetPower := 139 }

/-- C9, witness: the amended theorem applied at concrete states — a fresh
manager, `stop`, one `update` step, and a completing `update` step. -/
theorem c9_segment_index_behavior_witness :
    (WMState.init 215 124 143).currentSegmentIndex = -1 ∧
    (WMState.init 215 124 143).stop.currentSegmentIndex = -1 ∧
    (WMState.init 215 124 143).currentSegmentIndex ≤
      (((WMState.init 215 124 143).update 0).1).currentSegmentIndex ∧
    ((c9WitnessState.update 301).1).currentSegmentIndex =
      (c9WitnessState.segments.length : ℤ) := by
  have hrun : ((c9WitnessState.update 301).1).isRunning = false := by
    norm_num [c9WitnessState, WMState.update, emitPowerChange, List.getD,
      show ((0:ℤ).toNat) = 0 from rfl, show ((0:ℤ) + 1) = 1 from by norm_num]
  exact ⟨c9_segment_index_behavior.1 215 124 143,
    c9_segment_index_behavior.2.1 (WMState.init 215 124 143),
    c9_segment_index_behavior.2.2.1 (WMState.init 215 124 143) 0,
    c9_segment_index_behavior.2.2.2 c9WitnessState 301 rfl
      (by norm_num [c9WitnessState]) (by norm_num [c9WitnessState]) hrun⟩

/-! ## Zone analyzer (src/zone_analyzer.py) -/

/-- `Alert` (src/zone_analyzer.py:16-22).  The human-readable `message`
string carries no decision-relevant content and is omitted from the model;
`type`, `severity` and `timestamp` are kept. -/
structure Alert where
  type : String
  severity : String
  timestamp : ℚ
deriving DecidableEq, Repr

/-- `ZoneAnalyzer` mutable state (src/zone_analyzer.py:41-79).
`_last_alert_time` is a dict read through `.get(key, 0)`; it is modelled as
a total function with default `0`. -/
structure ZAState where
  zone2_low : ℤ
  zone2_high : ℤ
  drift_threshold : ℚ
  decoupling_threshold : ℚ
  hr_alert_delay : ℚ
  hrHistory : List ℤ
  powerHistory : List ℤ
  cadenceHistory : List ℤ
  timestamps : List ℚ
  hrOutOfZoneStart : Option ℚ
  lastAlertTime : String → ℚ
  alertCooldown : ℚ
  timeInZone : ℚ
  timeAbove : ℚ
  timeBelow : ℚ
  lastUpdateTime : Option ℚ
  workoutStart : Option ℚ

/-- `ZoneAnalyzer.__init__` with the given zone bounds and alert delay
(drift threshold 5.0, decoupling threshold 10.0, cooldown 30.0 defaults). -/
def zaInit (low high : ℤ) (delay : ℚ) : ZAState :=
  { zone2_low := low
    zone2_high := high
    drift_threshold := 5
    decoupling_threshold := 10
    hr_alert_delay := delay
    hrHistory := []
    powerHistory := []
    cadenceHistory := []
    timestamps := []
    hrOutOfZoneStart := none
    lastAlertTime := fun _ => 0
    alertCooldown := 30
    timeInZone := 0
    timeAbove := 0
    timeBelow := 0
    lastUpdateTime := none
    workoutStart := none }

/-- `deque(maxlen=3600).append`: append on the right, evict from the left
once the buffer exceeds 3600 entries. -/
def pushMax {α : Type} (l : List α) (x : α) : List α :=
  let l2 := l ++ [x]
  if 3600 < l2.length then l2.drop (l2.length - 3600) else l2

/-- `np.mean` of a nonempty integer list, exact in ℚ (callers guard the
empty case). -/
def npMean (l : List ℤ) : ℚ := (l.sum : ℚ) / l.length

/-- `ZoneAnalyzer._can_alert` (src/zone_analyzer.py:257-260). -/
def canAlert (s : ZAState) (ty : String) (now : ℚ) : Prop :=
  now - s.lastAlertTime ty > s.alertCooldown

instance (s : ZAState) (ty : String) (now : ℚ) : Decidable (canAlert s ty now) := by
  unfold canAlert
  infer_instance

/-- `ZoneAnalyzer._check_hr_zone` (src/zone_analyzer.py:136-171), returning
the updated state (persistence timer, cooldown stamp) and the optional
alert. -/
def checkHrZone (s : ZAState) (hr : ℤ) (now : ℚ) : ZAState × Option Alert :=
  if s.zone2_low ≤ hr ∧ hr ≤ s.zone2_high then
    ({ s with hrOutOfZoneStart := none }, none)
  else
    let start := s.hrOutOfZoneStart.getD now
    let s1 := { s with hrOutOfZoneStart := some start }
    if now - start < s1.hr_alert_delay then (s1, none)
    else
      let ty := if hr > s1.zone2_high then "hr_high" else "hr_low"
      if ¬ canAlert s1 ty now then (s1, none)
      else
        let s2 := { s1 with lastAlertTime := fun k => if k = ty then now else s1.lastAlertTime k }
        if hr > s2.zone2_high then
          (s2, some { type := "hr_high",
                      severity := if hr < s2.zone2_high + 10 then "warning" else "critical",
                      timestamp := now })
        else
          (s2, some { type := "hr_low", severity := "warning", timestamp := now })

/-- `ZoneAnalyzer._check_cardiac_drift` (src/zone_analyzer.py:173-214). -/
def checkCardiacDrift (s : ZAState) (now : ℚ) : ZAState × Option Alert :=
  if ¬ canAlert s "cardiac_drift" now then (s, none)
  else
    let n := s.hrHistory.length
    let half := n / 2
    let firstHalfHr := s.hrHistory.take half
    let firstHalfPower := s.powerHistory.take half
    let secondHalfHr := s.hrHistory.drop half
    let secondHalfPower := s.powerHistory.drop half
    let avgHr1 := if firstHalfHr ≠ [] then npMean firstHalfHr else 0
    let avgHr2 := if secondHalfHr ≠ [] then npMean secondHalfHr else 0
    let avgPower1 := if firstHalfPower ≠ [] then npMean firstHalfPower else 0
    let avgPower2 := if secondHalfPower ≠ [] then npMean secondHalfPower else 0
    if avgHr1 = 0 ∨ avgPower1 = 0 then (s, none)
    else
      let ef1 := avgPower1 / avgHr1
      let ef2 := if avgHr2 > 0 then avgPower2 / avgHr2 else 0
      if ef1 > 0 then
        let driftPercent := (ef1 - ef2) / ef1 * 100
        if driftPercent > s.drift_threshold then
          ({ s with lastAlertTime := fun k => if k = "cardiac_drift" then now else s.lastAlertTime k },
           some { type := "cardiac_drift",
                  severity := if driftPercent < 10 then "warning" else "critical",
                  timestamp := now })
        else (s, none)
      else (s, none)

/-- Python slice `l[-n:]`. -/
def lastN {α : Type} (l : List α) (n : ℕ) : List α := l.drop (l.length - n)

/-- `ZoneAnalyzer._check_decoupling` (src/zone_analyzer.py:216-255). -/
def checkDecoupling (s : ZAState) (now : ℚ) : ZAState × Option Alert :=
  if ¬ canAlert s "decoupling" now then (s, none)
  else
    let recentHr := lastN s.hrHistory 300
    let recentPower := lastN s.powerHistory 300
    let olderHr := if 600 < s.hrHistory.length then
        (s.hrHistory.drop (s.hrHistory.length - 600)).take 300 else []
    let olderPower := if 600 < s.powerHistory.length then
        (s.powerHistory.drop (s.powerHistory.length - 600)).take 300 else []
    if olderHr = [] ∨ olderPower = [] then (s, none)
    else
      let avgHrRecent := npMean recentHr
      let avgPowerRecent := npMean recentPower
      let avgHrOlder := npMean olderHr
      let avgPowerOlder := npMean olderPower
      if avgHrOlder = 0 ∨ avgPowerOlder = 0 then (s, none)
      else
        let powerChange := (avgPowerRecent - avgPowerOlder) / avgPowerOlder * 100
        let hrChange := (avgHrRecent - avgHrOlder) / avgHrOlder * 100
        if powerChange < -5 ∧ hrChange > -2 then
          let dec := |powerChange - hrChange|
          if dec > s.decoupling_threshold then
            ({ s with lastAlertTime := fun k => if k = "decoupling" then now else s.lastAlertTime k },
             some { type := "decoupling", severity := "warning", timestamp := now })
          else (s, none)
        else (s, none)

/-- The bookkeeping prefix of `ZoneAnalyzer.update`
(src/zone_analyzer.py:92-114): set the workout start, append to the history
deques, accrue phase-gated zone time against the delta since the previous
update, then stamp `_last_update_time`. -/
def zaStore (s : ZAState) (hr power cadence : ℤ) (phase : String) (now : ℚ) : ZAState :=
  let s0 := { s with workoutStart := some (s.workoutStart.getD now) }
  let s1 := { s0 with
    hrHistory := pushMax s0.hrHistory hr
    powerHistory := pushMax s0.powerHistory power
    cadenceHistory := pushMax s0.cadenceHistory cadence
    timestamps := pushMax s0.timestamps now }
  let s2 :=
    match s1.lastUpdateTime with
    | none => s1
    | some t =>
      if phase = "main" then
        let dt := now - t
        if s1.zone2_low ≤ hr ∧ hr ≤ s1.zone2_high then
          { s1 with timeInZone := s1.timeInZone + dt }
        else if hr > s1.zone2_high then
          { s1 with timeAbove := s1.timeAbove + dt }
        else
          { s1 with timeBelow := s1.timeBelow + dt }
      else s1
  { s2 with lastUpdateTime := some now }

/-- `ZoneAnalyzer.update` (src/zone_analyzer.py:81-134): stores the sample
(`zaStore`), then (during `'main'`) evaluates the HR-zone alert and — once
more than 300 samples have accumulated — the cardiac-drift and decoupling
alerts, in that order. -/
def zaUpdate (s : ZAState) (hr power cadence : ℤ) (phase : String) (now : ℚ) :
    ZAState × List Alert :=
  let s3 := zaStore s hr power cadence phase now
  if phase = "main" then
    let r4 := checkHrZone s3 hr now
    let r5 := if 300 < r4.1.hrHistory.length then checkCardiacDrift r4.1 now
              else (r4.1, none)
    let r6 := if 300 < r5.1.hrHistory.length then checkDecoupling r5.1 now
              else (r5.1, none)
    (r6.1, r4.2.toList ++ r5.2.toList ++ r6.2.toList)
  else (s3, [])

/-- Appending to a deque below its 3600-entry bound grows it by one. -/
theorem pushMax_length {α : Type} (l : List α) (x : α) (h : l.length ≤ 3599) :
    (pushMax l x).length = l.length + 1 := by
  unfold pushMax
  rw [if_neg (by simp; omega)]
  simp

/-- `_check_hr_zone` never touches the history buffers or the configured
bounds. -/
theorem checkHrZone_preserves (s : ZAState) (hr : ℤ) (now : ℚ) :
    ((checkHrZone s hr now).1).hrHistory = s.hrHistory ∧
    ((checkHrZone s hr now).1).zone2_low = s.zone2_low ∧
    ((checkHrZone s hr now).1).zone2_high = s.zone2_high ∧
    ((checkHrZone s hr now).1).hr_alert_delay = s.hr_alert_delay ∧
    ((checkHrZone s hr now).1).alertCooldown = s.alertCooldown := by
  simp only [checkHrZone]
  split_ifs <;> exact ⟨rfl, rfl, rfl, rfl, rfl⟩

/-- C6, counterexample.  Zone 124–143, persistence and cooldown satisfied,
heart rate exactly `zone2_high + 10 = 153`: the code's
`'warning' if hr < zone2_high + 10 else 'critical'` yields **critical**,
while the claim demands warning at exactly high + 10. -/
theorem c6_counterexample :
    (checkHrZone { zaInit 124 143 10 with hrOutOfZoneStart := some 0 } 153 40).2 =
      some { type := "hr_high", severity := "critical", timestamp := 40 } := by
  norm_num [checkHrZone, zaInit, canAlert]

/-- C6, amended.  An `hr_high` alert emitted by `_check_hr_zone` has
severity `'critical'` exactly when the triggering heart rate is **at least**
`zone2_high + 10` (the code tests `hr < zone2_high + 10` for warning), and
`'warning'` otherwise; in particular at heart rate exactly `zone2_high + 10`
the alert is critical, not warning. -/
theorem c6_hr_high_severity_boundary (s : ZAState) (hr : ℤ) (now : ℚ) (a : Alert)
    (h : (checkHrZone s hr now).2 = some a) (hty : a.type = "hr_high") :
    a.severity = "critical" ↔ s.zone2_high + 10 ≤ hr := by
  simp only [checkHrZone] at h
  split_ifs at h with h1 h2 h3 h4 h5 <;> simp at h
  · subst h
    exact iff_of_false (by simp) (by omega)
  · subst h
    exact iff_of_true rfl (by omega)
  · subst h
    exact absurd hty (by simp)

/-- C6, witness: zone 124–143, hr 150 (above zone but below high+10),
persistence and cooldown satisfied — the emitted alert is a warning, and the
boundary equivalence holds. -/
theorem c6_hr_high_severity_boundary_witness :
    ({ type := "hr_high", severity := "warning", timestamp := 40 } : Alert).severity =
      "critical" ↔
    ({ zaInit 124 143 10 with hrOutOfZoneStart := some 0 } : ZAState).zone2_high + 10 ≤ 150 :=
  c6_hr_high_severity_boundary
    { zaInit 124 143 10 with hrOutOfZoneStart := some 0 } 150 40
    { type := "hr_high", severity := "warning", timestamp := 40 }
    (by norm_num [checkHrZone, zaInit, canAlert]) rfl

set_option maxHeartbeats 1000000 in
/-- Characterization of `_check_hr_zone` at 150 bpm against zone 124–143
with a 10 s delay and 30 s cooldown: the persistence start becomes (or
stays) the `getD` value, everything else of the state except the cooldown
stamp is untouched, and an `hr_high` warning is emitted exactly when the
out-of-zone time has reached the delay and the cooldown has passed. -/
theorem checkHrZone_out150 (S : ZAState) (now : ℚ)
    (hlow : S.zone2_low = 124) (hhigh : S.zone2_high = 143)
    (hdelay : S.hr_alert_delay = 10) (hcool : S.alertCooldown = 30) :
    (checkHrZone S 150 now).1.zone2_low = 124 ∧
    (checkHrZone S 150 now).1.zone2_high = 143 ∧
    (checkHrZone S 150 now).1.hr_alert_delay = 10 ∧
    (checkHrZone S 150 now).1.alertCooldown = 30 ∧
    (checkHrZone S 150 now).1.hrHistory = S.hrHistory ∧
    (checkHrZone S 150 now).1.hrOutOfZoneStart = some (S.hrOutOfZoneStart.getD now) ∧
    (if now - S.hrOutOfZoneStart.getD now < 10 then
       (checkHrZone S 150 now).2 = none ∧
       (checkHrZone S 150 now).1.lastAlertTime "hr_high" = S.lastAlertTime "hr_high"
     else if 30 < now - S.lastAlertTime "hr_high" then
       (checkHrZone S 150 now).2 = some ⟨"hr_high", "warning", now⟩ ∧
       (checkHrZone S 150 now).1.lastAlertTime "hr_high" = now
     else
       (checkHrZone S 150 now).2 = none ∧
       (checkHrZone S 150 now).1.lastAlertTime "hr_high" = S.lastAlertTime "hr_high") := by
  simp only [checkHrZone, canAlert, hlow, hhigh, hdelay, hcool]
  norm_num
  split_ifs <;> simp_all <;> linarith

/-- The bookkeeping prefix changes only the history buffers, the zone-time
accumulators and the update/start stamps. -/
theorem zaStore_proj (s : ZAState) (hr power cadence : ℤ) (phase : String) (now : ℚ) :
    (zaStore s hr power cadence phase now).zone2_low = s.zone2_low ∧
    (zaStore s hr power cadence phase now).zone2_high = s.zone2_high ∧
    (zaStore s hr power cadence phase now).hr_alert_delay = s.hr_alert_delay ∧
    (zaStore s hr power cadence phase now).alertCooldown = s.alertCooldown ∧
    (zaStore s hr power cadence phase now).hrHistory = pushMax s.hrHistory hr ∧
    (zaStore s hr power cadence phase now).hrOutOfZoneStart = s.hrOutOfZoneStart ∧
    (zaStore s hr power cadence phase now).lastAlertTime = s.lastAlertTime := by
  cases hlu : s.lastUpdateTime <;>
    (simp only [zaStore, hlu]
     try split_ifs
     all_goals simp)

set_option maxHeartbeats 1000000 in
/-- One out-of-zone `update` step at 150 bpm against zone 124–143 with a
10 s delay and 30 s cooldown, below the 300-sample drift threshold: the
persistence start is kept (or set) to the current `getD` value `ts`, the
history grows by one, and an `hr_high` warning is emitted exactly when the
out-of-zone time has reached the delay and the cooldown has passed. -/
theorem c5_out_step (s : ZAState) (ts now : ℚ)
    (hlow : s.zone2_low = 124) (hhigh : s.zone2_high = 143)
    (hdelay : s.hr_alert_delay = 10) (hcool : s.alertCooldown = 30)
    (hstart : s.hrOutOfZoneStart.getD now = ts)
    (hlen : s.hrHistory.length ≤ 299) :
    ((zaUpdate s 150 200 90 "main" now).1.zone2_low = 124 ∧
     (zaUpdate s 150 200 90 "main" now).1.zone2_high = 143 ∧
     (zaUpdate s 150 200 90 "main" now).1.hr_alert_delay = 10 ∧
     (zaUpdate s 150 200 90 "main" now).1.alertCooldown = 30 ∧
     (zaUpdate s 150 200 90 "main" now).1.hrOutOfZoneStart = some ts ∧
     (zaUpdate s 150 200 90 "main" now).1.hrHistory.length = s.hrHistory.length + 1) ∧
    (if now - ts < 10 then
       (zaUpdate s 150 200 90 "main" now).2 = [] ∧
       (zaUpdate s 150 200 90 "main" now).1.lastAlertTime "hr_high" =
         s.lastAlertTime "hr_high"
     else if 30 < now - s.lastAlertTime "hr_high" then
       (zaUpdate s 150 200 90 "main" now).2 = [⟨"hr_high", "warning", now⟩] ∧
       (zaUpdate s 150 200 90 "main" now).1.lastAlertTime "hr_high" = now
     else
       (zaUpdate s 150 200 90 "main" now).2 = [] ∧
       (zaUpdate s 150 200 90 "main" now).1.lastAlertTime "hr_high" =
         s.lastAlertTime "hr_high") := by
  obtain ⟨p1, p2, p3, p4, p5, p6, p7⟩ := zaStore_proj s 150 200 90 "main" now
  obtain ⟨q1, q2, q3, q4, q5, q6, q7⟩ :=
    checkHrZone_out150 (zaStore s 150 200 90 "main" now) now
      (p1.trans hlow) (p2.trans hhigh) (p3.trans hdelay) (p4.trans hcool)
  have hh : (checkHrZone (zaStore s 150 200 90 "main" now) 150 now).1.hrHistory.length =
      s.hrHistory.length + 1 := by
    rw [q5, p5]
    exact pushMax_length _ _ (by omega)
  rw [p6, hstart] at q6
  rw [p6, hstart, p7] at q7
  have hg1 : ¬ (300 <
      (checkHrZone (zaStore s 150 200 90 "main" now) 150 now).1.hrHistory.length) := by
    rw [hh]
    omega
  simp only [zaUpdate, if_true]
  rw [if_neg hg1]
  dsimp only
  rw [if_neg hg1]
  dsimp only
  refine ⟨⟨q1, q2, q3, q4, q6, hh⟩, ?_⟩
  split_ifs at q7 ⊢ with hA hB
  · simp [q7.1, q7.2]
  · simp [q7.1, q7.2]
  · simp [q7.1, q7.2]

/-- The C5 scenario: a fresh analyzer with zone 124–143 and a 10 s alert
delay receives one 150 bpm sample per second during `'main'`, the `i`-th
update at wall-clock time `t0 + i`. -/
def c5Step (t0 : ℚ) : ℕ → ZAState × List Alert
  | 0 => zaUpdate (zaInit 124 143 10) 150 200 90 "main" t0
  | n + 1 => zaUpdate (c5Step t0 n).1 150 200 90 "main" (t0 + ((n + 1 : ℕ) : ℚ))

/-- Invariant of the C5 scenario, for runs that start after wall-clock 30
(true of any real `time.time()` value): through step 40 the persistence
timer holds `t0`, the cooldown stamp is 0 before the alert and `t0 + 10`
from it on, and the single `hr_high` warning fires exactly at step 10. -/
theorem c5_invariant (t0 : ℚ) (ht0 : 30 < t0) :
    ∀ i : ℕ, i ≤ 40 →
      ((c5Step t0 i).1.zone2_low = 124 ∧
       (c5Step t0 i).1.zone2_high = 143 ∧
       (c5Step t0 i).1.hr_alert_delay = 10 ∧
       (c5Step t0 i).1.alertCooldown = 30 ∧
       (c5Step t0 i).1.hrOutOfZoneStart = some t0 ∧
       (c5Step t0 i).1.hrHistory.length = i + 1 ∧
       (c5Step t0 i).1.lastAlertTime "hr_high" = (if i < 10 then 0 else t0 + 10)) ∧
      (c5Step t0 i).2 =
        (if i = 10 then [⟨"hr_high", "warning", t0 + 10⟩] else []) := by
  intro i
  induction i with
  | zero =>
    intro _
    simp only [c5Step]
    obtain ⟨⟨f1, f2, f3, f4, f5, f6⟩, halert⟩ :=
      c5_out_step (zaInit 124 143 10) t0 t0 rfl rfl rfl rfl rfl (by simp [zaInit])
    rw [if_pos (by simp)] at halert
    refine ⟨⟨f1, f2, f3, f4, f5, by rw [f6]; rfl, ?_⟩, ?_⟩
    · rw [if_pos (by omega), halert.2]
      rfl
    · rw [halert.1, if_neg (by omega)]
  | succ i ih =>
    intro hle
    obtain ⟨⟨f1, f2, f3, f4, f5, f6, f7⟩, _⟩ := ih (by omega)
    have hstart : ((c5Step t0 i).1).hrOutOfZoneStart.getD (t0 + ((i + 1 : ℕ) : ℚ)) = t0 := by
      rw [f5]
      rfl
    have hlen : ((c5Step t0 i).1).hrHistory.length ≤ 299 := by omega
    obtain ⟨⟨g1, g2, g3, g4, g5, g6⟩, halert⟩ :=
      c5_out_step ((c5Step t0 i).1) t0 (t0 + ((i + 1 : ℕ) : ℚ)) f1 f2 f3 f4 hstart hlen
    have hnow : (t0 + ((i + 1 : ℕ) : ℚ)) - t0 = ((i + 1 : ℕ) : ℚ) := by ring
    simp only [c5Step]
    by_cases h10 : i + 1 < 10
    · have hA : (t0 + ((i + 1 : ℕ) : ℚ)) - t0 < 10 := by
        rw [hnow]
        exact_mod_cast h10
      rw [if_pos hA] at halert
      refine ⟨⟨g1, g2, g3, g4, g5, by rw [g6, f6], ?_⟩, ?_⟩
      · rw [halert.2, f7, if_pos (by omega), if_pos h10]
      · rw [halert.1, if_neg (by omega)]
    · have hA : ¬ ((t0 + ((i + 1 : ℕ) : ℚ)) - t0 < 10) := by
        rw [hnow]
        push_cast
        push_neg
        push_neg at h10
        exact_mod_cast h10
      rw [if_neg hA] at halert
      by_cases h10e : i + 1 = 10
      · have hB : 30 < (t0 + ((i + 1 : ℕ) : ℚ)) - (c5Step t0 i).1.lastAlertTime "hr_high" := by
          rw [f7, if_pos (by omega)]
          have : ((i + 1 : ℕ) : ℚ) = 10 := by exact_mod_cast h10e
          rw [this]
          linarith
        rw [if_pos hB] at halert
        have hcast : ((i + 1 : ℕ) : ℚ) = 10 := by exact_mod_cast h10e
        refine ⟨⟨g1, g2, g3, g4, g5, by rw [g6, f6], ?_⟩, ?_⟩
        · rw [halert.2, if_neg (by omega), hcast]
        · rw [halert.1, if_pos h10e, hcast]
      · have hB : ¬ (30 < (t0 + ((i + 1 : ℕ) : ℚ)) - (c5Step t0 i).1.lastAlertTime "hr_high") := by
          rw [f7, if_neg (by omega)]
          have h41 : ((i + 1 : ℕ) : ℚ) ≤ 40 := by exact_mod_cast hle
          push_neg
          linarith
        rw [if_neg hB] at halert
        refine ⟨⟨g1, g2, g3, g4, g5, by rw [g6, f6], ?_⟩, ?_⟩
        · rw [halert.2, f7, if_neg (by omega), if_neg (by omega)]
        · rw [halert.1, if_neg h10e]

set_option maxHeartbeats 2000000 in
/-- `_check_cardiac_drift` never touches the zone-persistence timer. -/
theorem checkCardiacDrift_start (s : ZAState) (now : ℚ) :
    ((checkCardiacDrift s now).1).hrOutOfZoneStart = s.hrOutOfZoneStart := by
  simp only [checkCardiacDrift]
  split_ifs <;> rfl

set_option maxHeartbeats 2000000 in
/-- `_check_decoupling` never touches the zone-persistence timer. -/
theorem checkDecoupling_start (s : ZAState) (now : ℚ) :
    ((checkDecoupling s now).1).hrOutOfZoneStart = s.hrOutOfZoneStart := by
  simp only [checkDecoupling]
  split_ifs <;> rfl

/-- An in-zone heart rate resets the persistence timer and emits nothing. -/
theorem checkHrZone_inZone (S : ZAState) (hr : ℤ) (now : ℚ)
    (h1 : S.zone2_low ≤ hr) (h2 : hr ≤ S.zone2_high) :
    checkHrZone S hr now = ({ S with hrOutOfZoneStart := none }, none) := by
  simp only [checkHrZone]
  rw [if_pos ⟨h1, h2⟩]

/-- C5.  Feeding one 150 bpm sample per second (zone 124–143, phase
`'main'`, `hr_alert_delay = 10 s`) to a fresh analyzer starting at any
wall-clock time `t0 > 30`: no alert while the HR has been continuously out
of zone for less than 10 seconds (steps 0–9), exactly one `hr_high`
warning at the first update where it has persisted 10 seconds (step 10, at
`t0 + 10`), and no further `hr_high` alert through step 40 — the whole
30-second cooldown; furthermore a single in-zone sample resets the
persistence timer immediately, in any state. -/
theorem c5_zone_alert_scenario (t0 : ℚ) (ht0 : 30 < t0) :
    (∀ i : ℕ, i < 10 → (c5Step t0 i).2 = []) ∧
    (c5Step t0 10).2 = [⟨"hr_high", "warning", t0 + 10⟩] ∧
    (∀ i : ℕ, 11 ≤ i → i ≤ 40 → (c5Step t0 i).2 = []) ∧
    (∀ (s : ZAState) (hr power cadence : ℤ) (now : ℚ),
       s.zone2_low ≤ hr → hr ≤ s.zone2_high →
       ((zaUpdate s hr power cadence "main" now).1).hrOutOfZoneStart = none) := by
  refine ⟨?_, ?_, ?_, ?_⟩
  · intro i hi
    rw [(c5_invariant t0 ht0 i (by omega)).2, if_neg (by omega)]
  · rw [(c5_invariant t0 ht0 10 (by omega)).2, if_pos rfl]
  · intro i hi1 hi2
    rw [(c5_invariant t0 ht0 i (by omega)).2, if_neg (by omega)]
  · intro s hr power cadence now h1 h2
    obtain ⟨p1, p2, p3, p4, p5, p6, p7⟩ := zaStore_proj s hr power cadence "main" now
    simp only [zaUpdate, if_true]
    rw [checkHrZone_inZone _ _ _ (by rw [p1]; exact h1) (by rw [p2]; exact h2)]
    dsimp only
    split_ifs <;> simp [checkCardiacDrift_start, checkDecoupling_start]

/-- C5, witness: the scenario theorem applied at `t0 = 1000` (no alert at
step 5, the single warning at step 10, silence at step 20 inside the
cooldown, and an in-zone sample resetting a fresh analyzer's timer). -/
theorem c5_zone_alert_scenario_witness :
    (c5Step 1000 5).2 = [] ∧
    (c5Step 1000 10).2 = [⟨"hr_high", "warning", 1000 + 10⟩] ∧
    (c5Step 1000 20).2 = [] ∧
    ((zaUpdate (zaInit 124 143 10) 130 200 90 "main" 1000).1).hrOutOfZoneStart = none := by
  obtain ⟨h1, h2, h3, h4⟩ := c5_zone_alert_scenario 1000 (by norm_num)
  exact ⟨h1 5 (by norm_num), h2, h3 20 (by norm_num) (by norm_num),
    h4 (zaInit 124 143 10) 130 200 90 1000 (by norm_num [zaInit]) (by norm_num [zaInit])⟩

/-! ## FIT exporter (src/fit_exporter.py) -/

/-- Little-endian bytes of an unsigned 16-bit value. -/
def u16Bytes (n : ℕ) : List ℕ := [n % 256, n / 256 % 256]

/-- Little-endian bytes of an unsigned 32-bit value. -/
def u32Bytes (n : ℕ) : List ℕ :=
  [n % 256, n / 256 % 256, n / 65536 % 256, n / 16777216 % 256]

/-- `struct.pack('<B', n)`: one byte, raising (`none`) outside `[0, 255]`. -/
def packU8 (n : ℤ) : Option (List ℕ) :=
  if 0 ≤ n ∧ n < 256 then some [n.toNat] else none

/-- `struct.pack('<H', n)`: two LE bytes, raising outside `[0, 65535]`. -/
def packU16 (n : ℤ) : Option (List ℕ) :=
  if 0 ≤ n ∧ n < 65536 then some (u16Bytes n.toNat) else none

/-- `struct.pack('<I', n)`: four LE bytes, raising outside `[0, 2^32)`. -/
def packU32 (n : ℤ) : Option (List ℕ) :=
  if 0 ≤ n ∧ n < 4294967296 then some (u32Bytes n.toNat) else none

/-- The 16-entry nibble lookup table of `FitExporter._calculate_crc`
(src/fit_exporter.py:428-431). -/
def crcTable : List ℕ :=
  [0x0000, 0xCC01, 0xD801, 0x1400, 0xF001, 0x3C00, 0x2800, 0xE401,
   0xA001, 0x6C00, 0x7800, 0xB401, 0x5000, 0x9C01, 0x8801, 0x4400]

/-- One byte of `FitExporter._calculate_crc` (low nibble, then high
nibble). -/
def crcStep (crc b : ℕ) : ℕ :=
  let tmp1 := crcTable.getD (crc &&& 0xF) 0
  let crc1 := (crc >>> 4) &&& 0x0FFF
  let crc2 := crc1 ^^^ tmp1 ^^^ crcTable.getD (b &&& 0xF) 0
  let tmp2 := crcTable.getD (crc2 &&& 0xF) 0
  let crc3 := (crc2 >>> 4) &&& 0x0FFF
  crc3 ^^^ tmp2 ^^^ crcTable.getD ((b >>> 4) &&& 0xF) 0

/-- `FitExporter._calculate_crc` (src/fit_exporter.py:426-443). -/
def crc16 (data : List ℕ) : ℕ := data.foldl crcStep 0

/-- `FitRecord` (src/fit_exporter.py:12-19). -/
structure FitRecord where
  timestamp : ℚ
  heart_rate : ℤ
  power : ℤ
  cadence : ℤ
  speed : ℚ
deriving DecidableEq, Repr

/-- Unix time of the FIT epoch 1989-12-31T00:00:00Z.  The Python code
computes `record_time - fit_epoch` with timezone-aware datetimes; the
`total_seconds()` of that difference is exactly `timestamp - 631065600`. -/
def fitEpoch : ℚ := 631065600

/-- `int((record_time - fit_epoch).total_seconds())`. -/
def fitTimestamp (t : ℚ) : ℤ := pyTrunc (t - fitEpoch)

/-- `int(record.speed * 1000)` — speed in mm/s (src/fit_exporter.py:290). -/
def speedMms (speed : ℚ) : ℤ := pyTrunc (speed * 1000)

/-- The record-relevant state of `FitExporter` (src/fit_exporter.py:56-62):
the append-only record list plus the session start/end stamps maintained by
`add_record`.  The crash-safe JSON backup machinery is pure I/O and is not
modelled. -/
structure FitExporter where
  records : List FitRecord
  startTime : Option ℚ
  endTime : Option ℚ
deriving DecidableEq, Repr

/-- A fresh `FitExporter()`. -/
def FitExporter.empty : FitExporter := ⟨[], none, none⟩

/-- `FitExporter.add_record` (src/fit_exporter.py:64-85): the first call
captures the start time, every call extends the end time and appends. -/
def FitExporter.addRecord (e : FitExporter) (t : ℚ) (hr pw cad : ℤ) (sp : ℚ) : FitExporter :=
  { records := e.records ++ [⟨t, hr, pw, cad, sp⟩]
    startTime := some (e.startTime.getD t)
    endTime := some t }

/-- `FitExporter._build_file_id` (src/fit_exporter.py:241-263); every pack
is a constant in range, so the message is a fixed byte string. -/
def buildFileId : List ℕ :=
  -- definition message: header 0x40, reserved, little-endian, global msg 0,
  -- 4 fields (type enum1, manufacturer u16, product u16, serial u32z)
  [0x40, 0x00, 0x00] ++ [0x00, 0x00] ++ [0x04] ++
    [0, 1, 0] ++ [1, 2, 132] ++ [2, 2, 132] ++ [3, 4, 140] ++
  -- data message: type=4 (activity), manufacturer=1, product=1, serial=12345
  [0x00] ++ [0x04] ++ u16Bytes 1 ++ u16Bytes 1 ++ u32Bytes 12345

/-- `FitExporter._build_record_definition` (src/fit_exporter.py:265-280). -/
def buildRecordDefinition : List ℕ :=
  [0x41, 0x00, 0x00] ++ u16Bytes 20 ++ [0x05] ++
    [253, 4, 134] ++ [3, 1, 2] ++ [4, 1, 2] ++ [7, 2, 132] ++ [6, 2, 132]

/-- `FitExporter._build_record_data` (src/fit_exporter.py:282-299): u32
FIT timestamp, u8 heart rate and cadence clamped from above at 255, u16
power and mm/s speed clamped from above at 65535.  There is no clamping at
zero: a negative value reaches `struct.pack` unchanged and raises. -/
def buildRecordData (r : FitRecord) : Option (List ℕ) :=
  (packU32 (fitTimestamp r.timestamp)).bind fun tsB =>
  (packU8 (min 255 r.heart_rate)).bind fun hrB =>
  (packU8 (min 255 r.cadence)).bind fun cadB =>
  (packU16 (min 65535 r.power)).bind fun pwB =>
  (packU16 (min 65535 (speedMms r.speed))).bind fun spB =>
  some ([0x01] ++ tsB ++ hrB ++ cadB ++ pwB ++ spB)

/-- `FitExporter._build_event` (src/fit_exporter.py:301-325) at the given
wall-clock stamp (`_start_time` for the start event, `_end_time` for the
stop event). -/
def buildEvent (eventType eventVal : ℤ) (ts : ℚ) : Option (List ℕ) :=
  (packU32 (fitTimestamp ts)).bind fun tsB =>
  (packU8 eventVal).bind fun evB =>
  (packU8 eventType).bind fun etB =>
  some (([0x42, 0x00, 0x00] ++ u16Bytes 21 ++ [0x03] ++
    [253, 4, 134] ++ [0, 1, 0] ++ [1, 1, 0]) ++
    [0x02] ++ tsB ++ evB ++ etB)

/-- `int(sum(hr)/len(records))` of src/fit_exporter.py:350 (0 when there
are no records). -/
def avgOf (l : List ℤ) : ℤ :=
  if l = [] then 0 else pyTrunc ((l.sum : ℚ) / l.length)

/-- `int((end - start) * 1000)`. -/
def elapsedMs (st et : ℚ) : ℤ := pyTrunc ((et - st) * 1000)

/-- `FitExporter._build_lap` (src/fit_exporter.py:327-361). -/
def buildLap (st et : ℚ) (records : List FitRecord) : Option (List ℕ) :=
  (packU32 (fitTimestamp et)).bind fun endB =>
  (packU32 (fitTimestamp st)).bind fun startB =>
  (packU32 (elapsedMs st et)).bind fun elB =>
  (packU8 (min 255 (avgOf (records.map FitRecord.heart_rate)))).bind fun hrB =>
  (packU16 (min 65535 (avgOf (records.map FitRecord.power)))).bind fun pwB =>
  some (([0x43, 0x00, 0x00] ++ u16Bytes 19 ++ [0x06] ++
    [253, 4, 134] ++ [2, 4, 134] ++ [7, 4, 134] ++ [8, 4, 134] ++
    [15, 1, 2] ++ [19, 2, 132]) ++
    [0x03] ++ endB ++ startB ++ elB ++ elB ++ hrB ++ pwB)

/-- `FitExporter._build_session` (src/fit_exporter.py:363-398). -/
def buildSession (st et : ℚ) (records : List FitRecord) : Option (List ℕ) :=
  (packU32 (fitTimestamp et)).bind fun endB =>
  (packU32 (fitTimestamp st)).bind fun startB =>
  (packU32 (elapsedMs st et)).bind fun elB =>
  (packU8 (min 255 (avgOf (records.map FitRecord.heart_rate)))).bind fun hrB =>
  (packU16 (min 65535 (avgOf (records.map FitRecord.power)))).bind fun pwB =>
  some (([0x44, 0x00, 0x00] ++ u16Bytes 18 ++ [0x07] ++
    [253, 4, 134] ++ [2, 4, 134] ++ [7, 4, 134] ++ [8, 4, 134] ++
    [5, 1, 0] ++ [16, 1, 2] ++ [20, 2, 132]) ++
    [0x04] ++ endB ++ startB ++ elB ++ elB ++ [0x02] ++ hrB ++ pwB)

/-- `FitExporter._build_activity` (src/fit_exporter.py:400-424). -/
def buildActivity (st et : ℚ) : Option (List ℕ) :=
  (packU32 (fitTimestamp et)).bind fun endB =>
  (packU32 (elapsedMs st et)).bind fun elB =>
  some (([0x45, 0x00, 0x00] ++ u16Bytes 34 ++ [0x04] ++
    [253, 4, 134] ++ [0, 4, 134] ++ [1, 2, 132] ++ [2, 1, 0]) ++
    [0x05] ++ endB ++ elB ++ u16Bytes 1 ++ [0x00])

/-- `Option`-valued map used to model the per-record loop of
`_build_data_records`: the first record whose packing raises aborts the
build. -/
def mapOpt {α β : Type} (f : α → Option β) : List α → Option (List β)
  | [] => some []
  | x :: xs => (f x).bind fun y => (mapOpt f xs).map fun ys => y :: ys

/-- `FitExporter._build_data_records` (src/fit_exporter.py:209-239).
`none` branches model the `TypeError` of using an unset (`None`) start/end
time and any `struct.error` from the message builders. -/
def buildDataRecords (e : FitExporter) : Option (List ℕ) :=
  match e.startTime, e.endTime with
  | some st, some et =>
    (buildEvent 0 0 st).bind fun evStart =>
    (mapOpt buildRecordData e.records).bind fun recs =>
    (buildEvent 1 0 et).bind fun evStop =>
    (buildLap st et e.records).bind fun lap =>
    (buildSession st et e.records).bind fun session =>
    (buildActivity st et).bind fun activity =>
    some (buildFileId ++ evStart ++ buildRecordDefinition ++ recs.flatten ++
      evStop ++ lap ++ session ++ activity)
  | _, _ => none

/-- `FitExporter._build_header` (src/fit_exporter.py:191-207): 14 bytes —
size 14, protocol 0x20, profile 0x0814 u16 LE, data size u32 LE, `.FIT`,
and a CRC16 over the first 12 bytes. -/
def buildHeader (dataSize : ℕ) : Option (List ℕ) :=
  (packU32 (dataSize : ℤ)).bind fun ds =>
  let h12 := [14, 0x20] ++ u16Bytes 0x0814 ++ ds ++ [0x2E, 0x46, 0x49, 0x54]
  (packU16 ((crc16 h12 : ℕ) : ℤ)).bind fun crcB =>
  some (h12 ++ crcB)

/-- `FitExporter._build_fit_file` (src/fit_exporter.py:173-189): header,
body, and a trailing CRC16 over header + body. -/
def buildFitFile (e : FitExporter) : Option (List ℕ) :=
  (buildDataRecords e).bind fun body =>
  (buildHeader body.length).bind fun header =>
  (packU16 ((crc16 (header ++ body) : ℕ) : ℤ)).bind fun crcB =>
  some (header ++ body ++ crcB)

/-- The two failure modes of `FitExporter.export`: the explicit
`ValueError("No records to export")` and a `struct.error` escaping one of
the builders. -/
inductive FitError where
  | noRecords
  | packError
deriving DecidableEq, Repr

/-- `FitExporter.export` (src/fit_exporter.py:149-171), modulo the file
write: the returned bytes are what gets written to disk. -/
def FitExporter.export (e : FitExporter) : Except FitError (List ℕ) :=
  if e.records = [] then Except.error FitError.noRecords
  else
    match buildFitFile e with
    | some bytes => Except.ok bytes
    | none => Except.error FitError.packError

/-- `getD` stays below a bound satisfied by every entry and the default. -/
theorem getD_lt_of_forall (l : List ℕ) (i : ℕ) (b : ℕ)
    (hall : ∀ x ∈ l, x < b) (hd : 0 < b) : l.getD i 0 < b := by
  induction l generalizing i with
  | nil => simpa [List.getD] using hd
  | cons x xs ih =>
    cases i with
    | zero => exact hall x (by simp)
    | succ j =>
      simp only [List.getD_cons_succ]
      exact ih j (fun y hy => hall y (by simp [hy]))

/-- Every CRC table entry is a 16-bit value. -/
theorem crcTable_getD_lt (i : ℕ) : crcTable.getD i 0 < 65536 :=
  getD_lt_of_forall _ _ _ (by decide) (by norm_num)

/-- One CRC step stays within 16 bits. -/
theorem crcStep_lt (crc b : ℕ) : crcStep crc b < 65536 := by
  unfold crcStep
  have h16 : (65536 : ℕ) = 2 ^ 16 := by norm_num
  have hmask : ∀ x : ℕ, (x >>> 4) &&& 0x0FFF < 65536 := fun x =>
    lt_of_le_of_lt (Nat.and_le_right) (by norm_num)
  rw [h16]
  refine Nat.xor_lt_two_pow (Nat.xor_lt_two_pow ?_ ?_) ?_
  · rw [← h16]
    exact hmask _
  · rw [← h16]
    exact crcTable_getD_lt _
  · rw [← h16]
    exact crcTable_getD_lt _

/-- The FIT CRC16 always fits in 16 bits. -/
theorem crc16_lt (data : List ℕ) : crc16 data < 65536 := by
  unfold crc16
  have : ∀ (l : List ℕ) (c : ℕ), c < 65536 → l.foldl crcStep c < 65536 := by
    intro l
    induction l with
    | nil => intro c hc; simpa using hc
    | cons x xs ih =>
      intro c hc
      simpa using ih (crcStep c x) (crcStep_lt c x)
  exact this data 0 (by norm_num)

/-- `packU8` on an in-range value. -/
theorem packU8_eq {n : ℤ} (h0 : 0 ≤ n) (h1 : n < 256) : packU8 n = some [n.toNat] := by
  unfold packU8
  rw [if_pos ⟨h0, h1⟩]

/-- `packU16` on an in-range value. -/
theorem packU16_eq {n : ℤ} (h0 : 0 ≤ n) (h1 : n < 65536) :
    packU16 n = some (u16Bytes n.toNat) := by
  unfold packU16
  rw [if_pos ⟨h0, h1⟩]

/-- `packU32` on an in-range value. -/
theorem packU32_eq {n : ℤ} (h0 : 0 ≤ n) (h1 : n < 4294967296) :
    packU32 n = some (u32Bytes n.toNat) := by
  unfold packU32
  rw [if_pos ⟨h0, h1⟩]

/-- `struct.pack('<B', n)` raises on a negative value. -/
theorem packU8_none_of_neg {n : ℤ} (h : n < 0) : packU8 n = none := by
  unfold packU8
  rw [if_neg (by omega)]

/-- `struct.pack('<H', n)` raises on a negative value. -/
theorem packU16_none_of_neg {n : ℤ} (h : n < 0) : packU16 n = none := by
  unfold packU16
  rw [if_neg (by omega)]

/-- A record whose FIT timestamp fits u32 and whose clamped fields are
nonnegative (no negative heart rate, cadence, power, or mm/s speed). -/
def WellFormedRecord (r : FitRecord) : Prop :=
  0 ≤ fitTimestamp r.timestamp ∧ fitTimestamp r.timestamp < 4294967296 ∧
  0 ≤ r.heart_rate ∧ 0 ≤ r.cadence ∧ 0 ≤ r.power ∧ 0 ≤ speedMms r.speed

/-- A well-formed record packs into an 11-byte record message. -/
theorem buildRecordData_some {r : FitRecord} (h : WellFormedRecord r) :
    ∃ l, buildRecordData r = some l ∧ l.length = 11 := by
  obtain ⟨h1, h2, h3, h4, h5, h6⟩ := h
  refine ⟨[0x01] ++ u32Bytes (fitTimestamp r.timestamp).toNat ++
      [(min 255 r.heart_rate).toNat] ++ [(min 255 r.cadence).toNat] ++
      u16Bytes (min 65535 r.power).toNat ++
      u16Bytes (min 65535 (speedMms r.speed)).toNat, ?_, ?_⟩
  · unfold buildRecordData
    rw [packU32_eq h1 h2,
      packU8_eq (by omega) (by omega), packU8_eq (by omega) (by omega),
      packU16_eq (by omega) (by omega), packU16_eq (by omega) (by omega)]
    rfl
  · simp [u16Bytes, u32Bytes]

/-- A record with any negative field fails to pack. -/
theorem buildRecordData_none {r : FitRecord}
    (h : r.heart_rate < 0 ∨ r.cadence < 0 ∨ r.power < 0 ∨ speedMms r.speed < 0) :
    buildRecordData r = none := by
  rcases h with h | h | h | h
  · cases h32 : packU32 (fitTimestamp r.timestamp) <;>
      simp [buildRecordData, h32, packU8_none_of_neg (show min 255 r.heart_rate < 0 by omega)]
  · cases h32 : packU32 (fitTimestamp r.timestamp) <;>
      cases h8 : packU8 (min 255 r.heart_rate) <;>
        simp [buildRecordData, h32, h8,
          packU8_none_of_neg (show min 255 r.cadence < 0 by omega)]
  · cases h32 : packU32 (fitTimestamp r.timestamp) <;>
      cases h8 : packU8 (min 255 r.heart_rate) <;>
        cases h8c : packU8 (min 255 r.cadence) <;>
          simp [buildRecordData, h32, h8, h8c,
            packU16_none_of_neg (show min 65535 r.power < 0 by omega)]
  · cases h32 : packU32 (fitTimestamp r.timestamp) <;>
      cases h8 : packU8 (min 255 r.heart_rate) <;>
        cases h8c : packU8 (min 255 r.cadence) <;>
          cases h16 : packU16 (min 65535 r.power) <;>
            simp [buildRecordData, h32, h8, h8c, h16,
              packU16_none_of_neg (show min 65535 (speedMms r.speed) < 0 by omega)]

/-- `mapOpt` succeeds on a list of well-formed records, producing
11 bytes per record. -/
theorem mapOpt_buildRecordData_some (rs : List FitRecord)
    (h : ∀ r ∈ rs, WellFormedRecord r) :
    ∃ ys, mapOpt buildRecordData rs = some ys ∧
      ys.flatten.length = 11 * rs.length := by
  induction rs with
  | nil => exact ⟨[], rfl, rfl⟩
  | cons r rs ih =>
    obtain ⟨l, hl, hlen⟩ := buildRecordData_some (h r (by simp))
    obtain ⟨ys, hys, hyslen⟩ := ih (fun x hx => h x (by simp [hx]))
    refine ⟨l :: ys, ?_, ?_⟩
    · simp [mapOpt, hl, hys]
    · simp [hlen, hyslen, List.length_append]
      ring

/-- `mapOpt` fails as soon as one record fails to pack. -/
theorem mapOpt_buildRecordData_none (rs : List FitRecord) (r : FitRecord)
    (hr : r ∈ rs) (h : buildRecordData r = none) :
    mapOpt buildRecordData rs = none := by
  induction rs with
  | nil => cases hr
  | cons x xs ih =>
    rcases List.mem_cons.mp hr with hEq | hMem
    · subst hEq
      simp [mapOpt, h]
    · cases hx : buildRecordData x <;> simp [mapOpt, hx, ih hMem]

/-- `pyTrunc` of a nonnegative rational is nonnegative. -/
theorem pyTrunc_nonneg {q : ℚ} (h : 0 ≤ q) : 0 ≤ pyTrunc q := by
  unfold pyTrunc
  rw [if_pos h]
  exact Int.le_floor.mpr (by simpa using h)

/-- The truncated average of a list of nonnegative integers is
nonnegative. -/
theorem avgOf_nonneg {l : List ℤ} (h : ∀ x ∈ l, 0 ≤ x) : 0 ≤ avgOf l := by
  unfold avgOf
  split_ifs with he
  · exact le_refl 0
  · exact pyTrunc_nonneg (div_nonneg (by exact_mod_cast List.sum_nonneg h) (by positivity))

/-- `_build_event` succeeds on in-range event bytes and timestamp, giving
a 22-byte message. -/
theorem buildEvent_some (ty ev : ℤ) (ts : ℚ)
    (hty0 : 0 ≤ ty) (hty1 : ty < 256) (hev0 : 0 ≤ ev) (hev1 : ev < 256)
    (h0 : 0 ≤ fitTimestamp ts) (h1 : fitTimestamp ts < 4294967296) :
    ∃ l, buildEvent ty ev ts = some l ∧ l.length = 22 := by
  unfold buildEvent
  rw [packU32_eq h0 h1]
  simp only [Option.some_bind]
  rw [packU8_eq hev0 hev1]
  simp only [Option.some_bind]
  rw [packU8_eq hty0 hty1]
  simp only [Option.some_bind]
  refine ⟨_, rfl, ?_⟩
  simp [u16Bytes, u32Bytes]

/-- `_build_lap` succeeds when the stamps, elapsed time and the (always
clamped-from-above) averages are in range, giving a 44-byte message. -/
theorem buildLap_some (st et : ℚ) (records : List FitRecord)
    (hs0 : 0 ≤ fitTimestamp st) (hs1 : fitTimestamp st < 4294967296)
    (he0 : 0 ≤ fitTimestamp et) (he1 : fitTimestamp et < 4294967296)
    (hel0 : 0 ≤ elapsedMs st et) (hel1 : elapsedMs st et < 4294967296)
    (hhr : 0 ≤ avgOf (records.map FitRecord.heart_rate))
    (hpw : 0 ≤ avgOf (records.map FitRecord.power)) :
    ∃ l, buildLap st et records = some l ∧ l.length = 44 := by
  unfold buildLap
  rw [packU32_eq he0 he1]
  simp only [Option.some_bind]
  rw [packU32_eq hs0 hs1]
  simp only [Option.some_bind]
  rw [packU32_eq hel0 hel1]
  simp only [Option.some_bind]
  rw [packU8_eq (by omega) (by omega)]
  simp only [Option.some_bind]
  rw [packU16_eq (by omega) (by omega)]
  simp only [Option.some_bind]
  refine ⟨_, rfl, ?_⟩
  simp [u16Bytes, u32Bytes]

/-- `_build_session` succeeds under the same conditions, giving a 48-byte
message. -/
theorem buildSession_some (st et : ℚ) (records : List FitRecord)
    (hs0 : 0 ≤ fitTimestamp st) (hs1 : fitTimestamp st < 4294967296)
    (he0 : 0 ≤ fitTimestamp et) (he1 : fitTimestamp et < 4294967296)
    (hel0 : 0 ≤ elapsedMs st et) (hel1 : elapsedMs st et < 4294967296)
    (hhr : 0 ≤ avgOf (records.map FitRecord.heart_rate))
    (hpw : 0 ≤ avgOf (records.map FitRecord.power)) :
    ∃ l, buildSession st et records = some l ∧ l.length = 48 := by
  unfold buildSession
  rw [packU32_eq he0 he1]
  simp only [Option.some_bind]
  rw [packU32_eq hs0 hs1]
  simp only [Option.some_bind]
  rw [packU32_eq hel0 hel1]
  simp only [Option.some_bind]
  rw [packU8_eq (by omega) (by omega)]
  simp only [Option.some_bind]
  rw [packU16_eq (by omega) (by omega)]
  simp only [Option.some_bind]
  refine ⟨_, rfl, ?_⟩
  simp [u16Bytes, u32Bytes]

/-- `_build_activity` succeeds when the end stamp and elapsed time are in
range, giving a 30-byte message. -/
theorem buildActivity_some (st et : ℚ)
    (he0 : 0 ≤ fitTimestamp et) (he1 : fitTimestamp et < 4294967296)
    (hel0 : 0 ≤ elapsedMs st et) (hel1 : elapsedMs st et < 4294967296) :
    ∃ l, buildActivity st et = some l ∧ l.length = 30 := by
  unfold buildActivity
  rw [packU32_eq he0 he1]
  simp only [Option.some_bind]
  rw [packU32_eq hel0 hel1]
  simp only [Option.some_bind]
  refine ⟨_, rfl, ?_⟩
  simp [u16Bytes, u32Bytes]

/-- The 12 CRC-covered header bytes of `_build_header` for a body of `n`
bytes: size 14, protocol 0x20, profile 0x0814 u16 LE, data size u32 LE,
ASCII `.FIT`. -/
def headerBytes (n : ℕ) : List ℕ :=
  [14, 0x20] ++ u16Bytes 0x0814 ++ u32Bytes n ++ [0x2E, 0x46, 0x49, 0x54]

/-- The CRC-covered header prefix is 12 bytes. -/
theorem headerBytes_length (n : ℕ) : (headerBytes n).length = 12 := by
  simp [headerBytes, u16Bytes, u32Bytes]

/-- `_build_header` on an in-range data size: the 12 CRC-covered bytes
followed by their little-endian CRC16. -/
theorem buildHeader_eq (n : ℕ) (hn : n < 4294967296) :
    buildHeader n =
      some (headerBytes n ++ u16Bytes (crc16 (headerBytes n))) := by
  unfold buildHeader
  simp only [headerBytes]
  rw [packU32_eq (by positivity) (by exact_mod_cast hn), Int.toNat_natCast,
    Option.some_bind]
  rw [show (packU16 ((crc16 ([14, 0x20] ++ u16Bytes 0x0814 ++ u32Bytes n ++
        [0x2E, 0x46, 0x49, 0x54]) : ℕ) : ℤ)) =
      some (u16Bytes (crc16 ([14, 0x20] ++ u16Bytes 0x0814 ++ u32Bytes n ++
        [0x2E, 0x46, 0x49, 0x54]))) from by
    rw [packU16_eq (by positivity) (by exact_mod_cast crc16_lt _), Int.toNat_natCast],
    Option.some_bind]

/-- `_build_header` raises when the data size overflows u32. -/
theorem buildHeader_none (n : ℕ) (hn : ¬ n < 4294967296) :
    buildHeader n = none := by
  unfold buildHeader
  have h32 : packU32 (n : ℤ) = none := by
    unfold packU32
    rw [if_neg (fun hc => hn (by exact_mod_cast hc.2))]
  rw [h32]
  rfl

/-- A session the exporter can serialize: at least one record, all records
well formed, start/end stamps set (as `add_record` guarantees) with FIT
timestamps and elapsed milliseconds in u32 range, and few enough records
for the body size to stay in u32 range. -/
def exportable (e : FitExporter) : Prop :=
  e.records ≠ [] ∧ e.records.length ≤ 100000000 ∧
  (∀ r ∈ e.records, WellFormedRecord r) ∧
  ∃ st et, e.startTime = some st ∧ e.endTime = some et ∧
    0 ≤ fitTimestamp st ∧ fitTimestamp st < 4294967296 ∧
    0 ≤ fitTimestamp et ∧ fitTimestamp et < 4294967296 ∧
    0 ≤ elapsedMs st et ∧ elapsedMs st et < 4294967296

/-- `_build_data_records` succeeds on an exportable session; the body is
215 fixed bytes plus 11 per record. -/
theorem buildDataRecords_some (e : FitExporter) (hx : exportable e) :
    ∃ body, buildDataRecords e = some body ∧
      body.length = 215 + 11 * e.records.length := by
  obtain ⟨hne, hcnt, hwf, st, et, hst, het, hs0, hs1, he0, he1, hel0, hel1⟩ := hx
  have hhr : 0 ≤ avgOf (e.records.map FitRecord.heart_rate) := by
    apply avgOf_nonneg
    intro x hxm
    obtain ⟨r, hr, rfl⟩ := List.mem_map.mp hxm
    exact (hwf r hr).2.2.1
  have hpw : 0 ≤ avgOf (e.records.map FitRecord.power) := by
    apply avgOf_nonneg
    intro x hxm
    obtain ⟨r, hr, rfl⟩ := List.mem_map.mp hxm
    exact (hwf r hr).2.2.2.2.1
  obtain ⟨evS, hevS, hevSlen⟩ :=
    buildEvent_some 0 0 st (by norm_num) (by norm_num) (by norm_num) (by norm_num) hs0 hs1
  obtain ⟨recs, hrecs, hrecslen⟩ := mapOpt_buildRecordData_some e.records hwf
  obtain ⟨evE, hevE, hevElen⟩ :=
    buildEvent_some 1 0 et (by norm_num) (by norm_num) (by norm_num) (by norm_num) he0 he1
  obtain ⟨lap, hlap, hlaplen⟩ :=
    buildLap_some st et e.records hs0 hs1 he0 he1 hel0 hel1 hhr hpw
  obtain ⟨ses, hses, hseslen⟩ :=
    buildSession_some st et e.records hs0 hs1 he0 he1 hel0 hel1 hhr hpw
  obtain ⟨act, hact, hactlen⟩ := buildActivity_some st et he0 he1 hel0 hel1
  refine ⟨buildFileId ++ evS ++ buildRecordDefinition ++ recs.flatten ++
    evE ++ lap ++ ses ++ act, ?_, ?_⟩
  · simp only [buildDataRecords, hst, het, hevS, hrecs, hevE, hlap, hses, hact,
      Option.some_bind]
  · simp only [List.length_append, hevSlen, hrecslen, hevElen, hlaplen,
      hseslen, hactlen]
    have h1 : buildFileId.length = 28 := by
      simp [buildFileId, u16Bytes, u32Bytes]
    have h2 : buildRecordDefinition.length = 21 := by
      simp [buildRecordDefinition, u16Bytes]
    omega

/-- `_build_fit_file` succeeds on an exportable session, producing a
nonempty file of 231 + 11n bytes. -/
theorem buildFitFile_some (e : FitExporter) (hx : exportable e) :
    ∃ f, buildFitFile e = some f ∧
      f.length = 231 + 11 * e.records.length ∧ f ≠ [] := by
  obtain ⟨body, hbody, hblen⟩ := buildDataRecords_some e hx
  have hlt : body.length < 4294967296 := by
    have := hx.2.1
    omega
  unfold buildFitFile
  rw [hbody, Option.some_bind, buildHeader_eq body.length hlt, Option.some_bind]
  rw [packU16_eq (by positivity) (by exact_mod_cast crc16_lt _), Int.toNat_natCast,
    Option.some_bind]
  refine ⟨_, rfl, ?_, ?_⟩
  · simp only [List.length_append, headerBytes_length]
    simp only [u16Bytes, List.length_cons, List.length_nil]
    omega
  · simp [u16Bytes]

/-- `export` succeeds on an exportable session, returning a nonempty
byte string. -/
theorem export_ok (e : FitExporter) (hx : exportable e) :
    ∃ f, e.export = Except.ok f ∧
      f.length = 231 + 11 * e.records.length ∧ f ≠ [] := by
  obtain ⟨f, hf, h1, h2⟩ := buildFitFile_some e hx
  refine ⟨f, ?_, h1, h2⟩
  unfold FitExporter.export
  rw [if_neg hx.1, hf]

/-- `int()` is the identity on integer-valued rationals. -/
theorem pyTrunc_intCast (n : ℤ) : pyTrunc (n : ℚ) = n := by
  unfold pyTrunc
  split_ifs with h
  · exact Int.floor_intCast n
  · exact Int.ceil_intCast n

/-- The FIT timestamp of the FIT epoch itself is 0. -/
theorem fitTimestamp_epoch : fitTimestamp 631065600 = 0 := by
  unfold fitTimestamp fitEpoch
  rw [show (631065600 : ℚ) - 631065600 = ((0 : ℤ) : ℚ) by norm_num, pyTrunc_intCast]

/-- A session whose start and end coincide has 0 elapsed milliseconds. -/
theorem elapsedMs_self (t : ℚ) : elapsedMs t t = 0 := by
  unfold elapsedMs
  rw [show (t - t) * 1000 = ((0 : ℤ) : ℚ) by push_cast; ring, pyTrunc_intCast]

/-- 3 m/s is 3000 mm/s. -/
theorem speedMms_three : speedMms 3 = 3000 := by
  unfold speedMms
  rw [show (3 : ℚ) * 1000 = ((3000 : ℤ) : ℚ) by norm_num, pyTrunc_intCast]

/-- `int(-0.0005 * 1000) = int(-0.5) = 0`: a slightly negative speed
truncates to a nonnegative mm/s value. -/
theorem speedMms_neg_small : speedMms (-(1 / 2000)) = 0 := by
  unfold speedMms pyTrunc
  rw [show (-(1 / 2000) : ℚ) * 1000 = -(1 / 2) by norm_num, if_neg (by norm_num)]
  rw [show (0 : ℤ) = ((0 : ℤ)) from rfl]
  norm_num [Int.ceil_eq_zero_iff, Set.mem_Ioc]

/-- A single `add_record` call with an epoch-range timestamp and
nonnegative fields yields an exportable session. -/
theorem exportable_single (t : ℚ) (hr pw cad : ℤ) (sp : ℚ)
    (ht0 : 0 ≤ fitTimestamp t) (ht1 : fitTimestamp t < 4294967296)
    (hhr : 0 ≤ hr) (hpw : 0 ≤ pw) (hcad : 0 ≤ cad)
    (hsp : 0 ≤ speedMms sp) :
    exportable (FitExporter.empty.addRecord t hr pw cad sp) := by
  refine ⟨by simp [FitExporter.addRecord, FitExporter.empty],
    by norm_num [FitExporter.addRecord, FitExporter.empty], ?_,
    t, t, rfl, rfl, ht0, ht1, ht0, ht1, ?_, ?_⟩
  · intro r hrm
    simp only [FitExporter.addRecord, FitExporter.empty, List.nil_append,
      List.mem_singleton] at hrm
    subst hrm
    exact ⟨ht0, ht1, hhr, hcad, hpw, hsp⟩
  · rw [elapsedMs_self]
  · rw [elapsedMs_self]
    norm_num

/-- C7: `export` on a session with zero records fails with the explicit
`ValueError` (`FitError.noRecords`), never returning an empty byte buffer;
on an exportable session with at least one record it succeeds with a
nonempty encoded file; and a successful export proves the record list was
nonempty, so the zero-record failure is distinguishable from a successful
zero-byte file. -/
theorem c7_zero_record_export (e : FitExporter) :
    (e.records = [] → e.export = Except.error FitError.noRecords) ∧
    (exportable e → ∃ f, e.export = Except.ok f ∧ f ≠ []) ∧
    (∀ f, e.export = Except.ok f → e.records ≠ []) := by
  refine ⟨?_, ?_, ?_⟩
  · intro h
    unfold FitExporter.export
    rw [if_pos h]
  · intro hx
    obtain ⟨f, hf, -, hne⟩ := export_ok e hx
    exact ⟨f, hf, hne⟩
  · intro f hf hnil
    unfold FitExporter.export at hf
    rw [if_pos hnil] at hf
    exact Except.noConfusion hf

theorem c7_zero_record_export_witness :
    FitExporter.empty.export = Except.error FitError.noRecords ∧
    ∃ f, (FitExporter.empty.addRecord 631065600 100 200 90 3).export =
      Except.ok f ∧ f ≠ [] := by
  constructor
  · exact (c7_zero_record_export FitExporter.empty).1 rfl
  · exact (c7_zero_record_export _).2.1
      (exportable_single 631065600 100 200 90 3
        (by norm_num [fitTimestamp_epoch]) (by norm_num [fitTimestamp_epoch])
        (by norm_num) (by norm_num) (by norm_num)
        (by norm_num [speedMms_three]))

/-- C8: every byte string produced by `_build_fit_file` is a 14-byte
header (the 12 bytes size 14 / protocol 0x20 / profile 0x0814 u16 LE /
data size u32 LE / ASCII `.FIT`, followed by the u16 LE CRC16 of those 12
bytes), then the message body, then a trailing u16 LE CRC16; and
re-running the table-driven CRC16 over everything before the last two
bytes reproduces the trailing checksum stored in the file. -/
theorem c8_header_layout_and_crc_roundtrip (e : FitExporter) (f : List ℕ)
    (h : buildFitFile e = some f) :
    ∃ body : List ℕ,
      buildDataRecords e = some body ∧
      body.length < 4294967296 ∧
      (headerBytes body.length).length = 12 ∧
      (headerBytes body.length ++
        u16Bytes (crc16 (headerBytes body.length))).length = 14 ∧
      f = headerBytes body.length ++
          u16Bytes (crc16 (headerBytes body.length)) ++ body ++
          u16Bytes (crc16 (headerBytes body.length ++
            u16Bytes (crc16 (headerBytes body.length)) ++ body)) ∧
      f.drop (f.length - 2) = u16Bytes (crc16 (f.take (f.length - 2))) := by
  unfold buildFitFile at h
  cases hb : buildDataRecords e with
  | none =>
    rw [hb] at h
    simp at h
  | some body =>
    rw [hb, Option.some_bind] at h
    by_cases hlt : body.length < 4294967296
    · rw [buildHeader_eq body.length hlt, Option.some_bind] at h
      rw [packU16_eq (by positivity) (by exact_mod_cast crc16_lt _),
        Int.toNat_natCast, Option.some_bind] at h
      have hf := (Option.some.inj h).symm
      refine ⟨body, rfl, hlt, headerBytes_length _, ?_, hf, ?_⟩
      · simp [headerBytes_length, u16Bytes]
      · have hlenA : f.length - 2 =
            (headerBytes body.length ++
              u16Bytes (crc16 (headerBytes body.length)) ++ body).length := by
          rw [hf]
          simp only [List.length_append, u16Bytes, List.length_cons,
            List.length_nil]
          omega
        rw [hlenA, hf, List.drop_left, List.take_left]
    · rw [buildHeader_none body.length hlt] at h
      simp at h

theorem c8_header_layout_and_crc_roundtrip_witness :
    ∃ f body : List ℕ,
      buildFitFile (FitExporter.empty.addRecord 631065600 100 200 90 3) = some f ∧
      buildDataRecords (FitExporter.empty.addRecord 631065600 100 200 90 3) = some body ∧
      f = headerBytes body.length ++
          u16Bytes (crc16 (headerBytes body.length)) ++ body ++
          u16Bytes (crc16 (headerBytes body.length ++
            u16Bytes (crc16 (headerBytes body.length)) ++ body)) ∧
      f.drop (f.length - 2) = u16Bytes (crc16 (f.take (f.length - 2))) := by
  obtain ⟨f, hf, -, -⟩ := buildFitFile_some _
    (exportable_single 631065600 100 200 90 3
      (by norm_num [fitTimestamp_epoch]) (by norm_num [fitTimestamp_epoch])
      (by norm_num) (by norm_num) (by norm_num)
      (by norm_num [speedMms_three]))
  obtain ⟨body, hbody, -, -, -, hlay, hcrc⟩ :=
    c8_header_layout_and_crc_roundtrip _ f hf
  exact ⟨f, body, hf, hbody, hlay, hcrc⟩

/-- C10 counterexample: a record whose speed is the negative value
-0.0005 m/s still exports successfully, because `int(speed * 1000)`
truncates -0.5 to 0 before `struct.pack` sees it; so not every record
with a negative field makes export raise. -/
theorem c10_counterexample :
    (-(1 / 2000) : ℚ) < 0 ∧ speedMms (-(1 / 2000)) = 0 ∧
    ∃ f, (FitExporter.empty.addRecord 631065600 100 200 90
      (-(1 / 2000))).export = Except.ok f := by
  refine ⟨by norm_num, speedMms_neg_small, ?_⟩
  obtain ⟨f, hf, -, -⟩ := export_ok _
    (exportable_single 631065600 100 200 90 (-(1 / 2000))
      (by norm_num [fitTimestamp_epoch]) (by norm_num [fitTimestamp_epoch])
      (by norm_num) (by norm_num) (by norm_num)
      (by norm_num [speedMms_neg_small]))
  exact ⟨f, hf⟩

/-- C10 (amended): record encoding clamps heart rate and cadence at 255
and power at 65535 from above only (pre-clamping with `min` leaves the
encoding unchanged); a record with a negative heart rate, cadence, power,
or truncated mm/s speed - the value `int(speed * 1000)` actually handed
to `struct.pack`, not the raw m/s speed - makes export fail with a
packing error; and an exportable session (all fields nonnegative,
timestamps in FIT range) exports successfully. -/
theorem c10_clamp_above_raise_below :
    (∀ r : FitRecord, buildRecordData r =
        buildRecordData { r with
          heart_rate := min 255 r.heart_rate
          cadence := min 255 r.cadence
          power := min 65535 r.power }) ∧
    (∀ e : FitExporter, ∀ r ∈ e.records,
        (r.heart_rate < 0 ∨ r.cadence < 0 ∨ r.power < 0 ∨
          speedMms r.speed < 0) →
        e.export = Except.error FitError.packError) ∧
    (∀ e : FitExporter, exportable e → ∃ f, e.export = Except.ok f) := by
  refine ⟨?_, ?_, ?_⟩
  · intro r
    obtain ⟨t, hr, pw, cad, sp⟩ := r
    simp only [buildRecordData]
    rw [show min 255 (min 255 hr) = min 255 hr from by rw [← min_assoc, min_self],
      show min 255 (min 255 cad) = min 255 cad from by rw [← min_assoc, min_self],
      show min 65535 (min 65535 pw) = min 65535 pw from by rw [← min_assoc, min_self]]
  · intro e r hrm hneg
    have hne : e.records ≠ [] := List.ne_nil_of_mem hrm
    have hmap : mapOpt buildRecordData e.records = none :=
      mapOpt_buildRecordData_none e.records r hrm (buildRecordData_none hneg)
    have hfile : buildFitFile e = none := by
      unfold buildFitFile
      have hbd : buildDataRecords e = none := by
        unfold buildDataRecords
        cases hst : e.startTime with
        | none => rfl
        | some st =>
          cases het : e.endTime with
          | none => rfl
          | some et =>
            dsimp only
            cases hev : buildEvent 0 0 st with
            | none => rfl
            | some evS => simp [hmap]
      rw [hbd]
      rfl
    unfold FitExporter.export
    rw [if_neg hne, hfile]
  · intro e hx
    obtain ⟨f, hf, -, -⟩ := export_ok e hx
    exact ⟨f, hf⟩

theorem c10_clamp_above_raise_below_witness :
    (FitExporter.empty.addRecord 631065600 (-1) 200 90 3).export =
      Except.error FitError.packError ∧
    ∃ f, (FitExporter.empty.addRecord 631065600 100 200 90 6).export =
      Except.ok f := by
  constructor
  · exact c10_clamp_above_raise_below.2.1 _ ⟨631065600, -1, 200, 90, 3⟩
      (by simp [FitExporter.addRecord, FitExporter.empty])
      (Or.inl (show (-1 : ℤ) < 0 by norm_num))
  · refine c10_clamp_above_raise_below.2.2 _
      (exportable_single 631065600 100 200 90 6
        (by norm_num [fitTimestamp_epoch]) (by norm_num [fitTimestamp_epoch])
        (by norm_num) (by norm_num) (by norm_num) ?_)
    have h6 : speedMms 6 = 6000 := by
      unfold speedMms
      rw [show (6 : ℚ) * 1000 = ((6000 : ℤ) : ℚ) by norm_num, pyTrunc_intCast]
    rw [h6]
    norm_num
